import Mathlib

/-!
# Verification of the EFILE submission integrity pipeline

A shallow embedding, in Lean 4, of the EFILE core of a Canadian tax-preparation
application: digest/dedup guard (`app/efile/service.py`), envelope builder
(`app/efile/t619.py`), prefile gate (`app/core/validate/pre_submit.py`),
transmission client with retry and circuit breaker (`app/efile/transmit.py`),
consent retention store (`app/efile/t183.py`) and its encryption layer
(`app/efile/crypto.py`).  Python functions become Lean functions; module-level
mutable state (the submission-digest cache, the circuit-breaker registry,
artifact files) becomes explicit state passed and returned; exceptions become
`Except`; `time.time()` and network outcomes become oracle parameters.
Machine reals used only as timestamps are modelled as rationals; `Decimal`
money values, which the pipeline only compares and pretty-prints, are modelled
as rationals.
-/

namespace TaxPrep

/-! ## Bytes and SHA-256

`hashlib.sha256(...).hexdigest()` from the Python standard library, used by
`prepare_xml_submission` to fingerprint a submission, implemented here per
FIPS 180-4 over natural numbers reduced modulo 2^32. -/

abbrev ByteSeq := List Nat

namespace SHA256

def w32 (x : Nat) : Nat := x % 4294967296

def rotr (n x : Nat) : Nat := w32 ((x >>> n) ||| (x <<< (32 - n)))

def bigSigma0 (x : Nat) : Nat := (rotr 2 x) ^^^ (rotr 13 x) ^^^ (rotr 22 x)

def bigSigma1 (x : Nat) : Nat := (rotr 6 x) ^^^ (rotr 11 x) ^^^ (rotr 25 x)

def smallSigma0 (x : Nat) : Nat := (rotr 7 x) ^^^ (rotr 18 x) ^^^ (x >>> 3)

def smallSigma1 (x : Nat) : Nat := (rotr 17 x) ^^^ (rotr 19 x) ^^^ (x >>> 10)

def chF (x y z : Nat) : Nat := (x &&& y) ^^^ ((x ^^^ 4294967295) &&& z)

def majF (x y z : Nat) : Nat := (x &&& y) ^^^ (x &&& z) ^^^ (y &&& z)

def K : List Nat :=
  [1116352408, 1899447441, 3049323471, 3921009573, 961987163,
   1508970993, 2453635748, 2870763221, 3624381080, 310598401,
   607225278, 1426881987, 1925078388, 2162078206, 2614888103,
   3248222580, 3835390401, 4022224774, 264347078, 604807628,
   770255983, 1249150122, 1555081692, 1996064986, 2554220882,
   2821834349, 2952996808, 3210313671, 3336571891, 3584528711,
   113926993, 338241895, 666307205, 773529912, 1294757372,
   1396182291, 1695183700, 1986661051, 2177026350, 2456956037,
   2730485921, 2820302411, 3259730800, 3345764771, 3516065817,
   3600352804, 4094571909, 275423344, 430227734, 506948616,
   659060556, 883997877, 958139571, 1322822218, 1537002063,
   1747873779, 1955562222, 2024104815, 2227730452, 2361852424,
   2428436474, 2756734187, 3204031479, 3329325298]

def H0 : List Nat :=
  [1779033703, 3144134277, 1013904242, 2773480762,
   1359893119, 2600822924, 528734635, 1541459225]

/-- `n` bytes of `x`, most significant first. -/
def beBytes : Nat → Nat → ByteSeq
  | 0, _ => []
  | n + 1, x => beBytes n (x / 256) ++ [x % 256]

/-- Merkle–Damgård padding: a 0x80 byte, zeros to 56 mod 64, then the
bit length as eight big-endian bytes. -/
def pad (msg : ByteSeq) : ByteSeq :=
  msg ++ 128 :: List.replicate ((119 - msg.length % 64) % 64) 0
      ++ beBytes 8 (8 * msg.length)

/-- Big-endian 32-bit words from bytes. -/
def toWords : ByteSeq → List Nat
  | b0 :: b1 :: b2 :: b3 :: rest =>
      (((b0 * 256 + b1) * 256 + b2) * 256 + b3) :: toWords rest
  | _ => []

def blocks (l : ByteSeq) : List ByteSeq :=
  if h : l = [] then [] else l.take 64 :: blocks (l.drop 64)
termination_by l.length
decreasing_by
  simp only [List.length_drop]
  have := List.length_pos.mpr h
  omega

/-- Extend the 16-word message schedule by `n` further words. -/
def extendW : List Nat → Nat → List Nat
  | w, 0 => w
  | w, n + 1 =>
      let t := w.length
      let fresh := w32 (smallSigma1 (w.getD (t - 2) 0) + w.getD (t - 7) 0 +
        smallSigma0 (w.getD (t - 15) 0) + w.getD (t - 16) 0)
      extendW (w ++ [fresh]) n

def roundStep (st : List Nat) (kw : Nat × Nat) : List Nat :=
  match st with
  | [a, b, c, d, e, f, g, h] =>
      let t1 := w32 (h + bigSigma1 e + chF e f g + kw.1 + kw.2)
      let t2 := w32 (bigSigma0 a + majF a b c)
      [w32 (t1 + t2), a, b, c, w32 (d + t1), e, f, g]
  | other => other

def compress (h : List Nat) (block : ByteSeq) : List Nat :=
  let w := extendW (toWords block) 48
  let f := (K.zip w).foldl roundStep h
  (h.zip f).map fun p => w32 (p.1 + p.2)

def hexDigit (n : Nat) : Char :=
  if n < 10 then Char.ofNat (48 + n) else Char.ofNat (87 + n)

/-- `k` lowercase hex digits of `x`, most significant first. -/
def hexN : Nat → Nat → List Char
  | 0, _ => []
  | k + 1, x => hexN k (x / 16) ++ [hexDigit (x % 16)]

end SHA256

/-- `hashlib.sha256(msg).hexdigest()`. -/
def sha256hex (msg : ByteSeq) : String :=
  let final := (SHA256.blocks (SHA256.pad msg)).foldl SHA256.compress SHA256.H0
  ⟨(final.map (SHA256.hexN 8)).flatten⟩

/-- UTF-8 encoding of one code point. -/
def utf8Bytes (c : Char) : ByteSeq :=
  let n := c.toNat
  if n < 128 then [n]
  else if n < 2048 then [192 + n / 64, 128 + n % 64]
  else if n < 65536 then [224 + n / 4096, 128 + n / 64 % 64, 128 + n % 64]
  else [240 + n / 262144, 128 + n / 4096 % 64, 128 + n / 64 % 64, 128 + n % 64]

/-- Python `s.encode("utf-8")`. -/
def strBytes (s : String) : ByteSeq := (s.data.map utf8Bytes).flatten

/-! ## Calendar model

`datetime.date` / `datetime.datetime` values as they are used by the pipeline.
Every datetime the core produces is normalized to UTC (`_ensure_utc`), so the
model keeps no timezone; proleptic-Gregorian day arithmetic follows the civil
calendar, as Python's `datetime` does. -/

structure PyDate where
  year : Nat
  month : Nat
  day : Nat
deriving DecidableEq, Repr

structure PyDateTime where
  year : Nat
  month : Nat
  day : Nat
  hour : Nat
  minute : Nat
  second : Nat
deriving DecidableEq, Repr

def isLeap (y : Nat) : Bool := y % 4 == 0 && (y % 100 != 0 || y % 400 == 0)

def daysInMonth (y m : Nat) : Nat :=
  if m = 2 then (if isLeap y then 29 else 28)
  else if m = 4 ∨ m = 6 ∨ m = 9 ∨ m = 11 then 30
  else 31

def validDate (y m d : Nat) : Bool :=
  1 ≤ m && m ≤ 12 && 1 ≤ d && d ≤ daysInMonth y m

/-- Civil date to day count (Gregorian, valid for year ≥ 1). -/
def daysFromCivil (y m d : Nat) : Nat :=
  let y' := if m ≤ 2 then y - 1 else y
  let era := y' / 400
  let yoe := y' % 400
  let mp := (m + 9) % 12
  let doy := (153 * mp + 2) / 5 + d - 1
  let doe := yoe * 365 + yoe / 4 - yoe / 100 + doy
  era * 146097 + doe

/-- Day count back to civil date, inverse of `daysFromCivil`. -/
def civilFromDays (z : Nat) : Nat × Nat × Nat :=
  let era := z / 146097
  let doe := z % 146097
  let yoe := (doe - doe / 1460 + doe / 36524 - doe / 146096) / 365
  let y' := yoe + era * 400
  let doy := doe - (365 * yoe + yoe / 4 - yoe / 100)
  let mp := (5 * doy + 2) / 153
  let d := doy - (153 * mp + 2) / 5 + 1
  let m := if mp < 10 then mp + 3 else mp - 9
  (if m ≤ 2 then y' + 1 else y', m, d)

/-- `dt + timedelta(days=n)` (the time of day is unchanged). -/
def addDays (dt : PyDateTime) (n : Nat) : PyDateTime :=
  let c := civilFromDays (daysFromCivil dt.year dt.month dt.day + n)
  { dt with year := c.1, month := c.2.1, day := c.2.2 }

/-- A strictly monotone key realizing Python's field-lexicographic
`datetime` comparison (month ≤ 12 < 13, day ≤ 31 < 32). -/
def dtKey (d : PyDateTime) : Nat :=
  ((((d.year * 13 + d.month) * 32 + d.day) * 24 + d.hour) * 60 + d.minute) * 60 + d.second

def dtLe (a b : PyDateTime) : Bool := dtKey a ≤ dtKey b

def natPad (w n : Nat) : String :=
  let s := toString n
  ⟨List.replicate (w - s.length) '0' ++ s.data⟩

/-- `date.isoformat()`. -/
def dateIso (d : PyDate) : String :=
  natPad 4 d.year ++ "-" ++ natPad 2 d.month ++ "-" ++ natPad 2 d.day

/-- `datetime.isoformat()` for a whole-second UTC-naive value. -/
def dtIso (d : PyDateTime) : String :=
  natPad 4 d.year ++ "-" ++ natPad 2 d.month ++ "-" ++ natPad 2 d.day ++ "T" ++
    natPad 2 d.hour ++ ":" ++ natPad 2 d.minute ++ ":" ++ natPad 2 d.second

/-- `datetime.timestamp()` for a UTC value, in whole seconds. -/
def epochSeconds (d : PyDateTime) : Int :=
  ((daysFromCivil d.year d.month d.day : Int) - (daysFromCivil 1970 1 1 : Int)) * 86400
    + d.hour * 3600 + d.minute * 60 + d.second

/-! ## Encryption layer (`app/efile/crypto.py`) -/

/-- Modelled from the spec: the `cryptography.fernet` library used by
`app/efile/crypto.py` is not part of the repository.  Its contract — an
authenticated symmetric token scheme whose decryption recovers exactly the
bytes that were encrypted under the same key, and raises `InvalidToken` on
every other input — is modelled as an injective tagged token (0x80 version
byte, key tag, payload). -/
def fernetEncrypt (key : Nat) (data : ByteSeq) : ByteSeq := 128 :: key :: data

def fernetDecrypt (key : Nat) (tok : ByteSeq) : Option ByteSeq :=
  match tok with
  | 128 :: k :: rest => if k = key then some rest else none
  | _ => none

/-- The configured `T183_CRYPTO_KEY`: absent (`_cipher()` returns `None`),
well-formed, or malformed (base64/Fernet construction fails). -/
inductive CryptoCfg
  | noKey
  | goodKey (k : Nat)
  | badKey
deriving DecidableEq

structure EncError where
  message : String
deriving DecidableEq

/-- `_cipher()`: `None` without a key; a `Fernet` for a well-formed key;
`EncryptionError` for a malformed key. -/
def cipherOf : CryptoCfg → Except EncError (Option Nat)
  | .noKey => .ok none
  | .goodKey k => .ok (some k)
  | .badKey => .error ⟨"Invalid T183 crypto key provided"⟩

/-- `crypto.encrypt`: with no cipher configured the data is returned as-is
(the deliberate plaintext fallback), otherwise it is encrypted. -/
def encrypt (cfg : CryptoCfg) (data : ByteSeq) : Except EncError ByteSeq := do
  match ← cipherOf cfg with
  | none => return data
  | some k => return fernetEncrypt k data

/-- `crypto.decrypt`: with no cipher configured the data is returned as-is;
with a cipher, an invalid token becomes an `EncryptionError`. -/
def decrypt (cfg : CryptoCfg) (data : ByteSeq) : Except EncError ByteSeq := do
  match ← cipherOf cfg with
  | none => return data
  | some k =>
      match fernetDecrypt k data with
      | some plain => return plain
      | none => throw ⟨"Failed to decrypt T183 record"⟩

/-! ## Consent retention store (`app/efile/t183.py`) -/

def RETENTION_YEARS : Nat := 6

/-- Python `s[-4:]`. -/
def pySliceLast4 (s : String) : String :=
  if s.length ≤ 4 then s else ⟨s.data.drop (s.length - 4)⟩

/-- `t183.mask_sin`. -/
def maskSin (s : String) : String :=
  if s ≠ "" ∧ s.length = 9 then "***-***-" ++ pySliceLast4 s else "***-***-****"

structure T183Record where
  taxpayerSinMasked : String
  filedAt : PyDateTime
  signedAt : PyDateTime
  esignAcceptedAt : Option PyDateTime
  expiresAt : PyDateTime
  ipHash : Option String
  userAgentHash : Option String
  pdfPath : String
deriving DecidableEq

/-- `t183._compute_expiry`: `filed_at.replace(year=filed_at.year + 6)`, and on
`ValueError` (a Feb-29 anchor whose target year is not leap) the fallback
`filed_at + (datetime(y+6,3,1) - datetime(y,3,1))`. -/
def computeExpiry (filedAt : PyDateTime) : PyDateTime :=
  if validDate (filedAt.year + RETENTION_YEARS) filedAt.month filedAt.day then
    { filedAt with year := filedAt.year + RETENTION_YEARS }
  else
    addDays filedAt
      (daysFromCivil (filedAt.year + RETENTION_YEARS) 3 1 - daysFromCivil filedAt.year 3 1)

/-- `t183.build_record` (all model datetimes are already UTC, so the
`_ensure_utc` normalizations are identities here). -/
def buildRecord (originalSin : String) (signedAt filedAt : PyDateTime) (pdfPath : String)
    (ipHash userAgentHash : Option String) (esignAcceptedAt : Option PyDateTime) : T183Record :=
  { taxpayerSinMasked := maskSin originalSin
    filedAt := filedAt
    signedAt := signedAt
    esignAcceptedAt := esignAcceptedAt
    expiresAt := computeExpiry filedAt
    ipHash := ipHash
    userAgentHash := userAgentHash
    pdfPath := pdfPath }

def dtBytes (d : PyDateTime) : ByteSeq :=
  [d.year / 256, d.year % 256, d.month, d.day, d.hour, d.minute, d.second]

/-- Modelled from the spec: the `json.dumps`/`json.loads` serialization of the
record (Python standard library) is modelled by a byte encoding that leads with
`expires_at` — the one field the purge sweep reads back — followed by the
remaining fields. -/
def encodeRecord (r : T183Record) : ByteSeq :=
  dtBytes r.expiresAt ++ strBytes r.taxpayerSinMasked ++ strBytes r.pdfPath

/-- Recover `expires_at` from a serialized record
(`json.loads` + `datetime.fromisoformat(data["expires_at"])`). -/
def parseExpiry (b : ByteSeq) : Option PyDateTime :=
  match b with
  | yh :: yl :: mo :: da :: h :: mi :: s :: _ => some ⟨yh * 256 + yl, mo, da, h, mi, s⟩
  | _ => none

/-- `t183.retention_path`: `{base}/{tax_year}/{sin[-4:]}`. -/
def retentionPath (base : String) (taxYear : Nat) (s : String) : String :=
  base ++ "/" ++ toString taxYear ++ "/" ++ pySliceLast4 s

/-- A file under the retention root: directory, bare name, suffix, bytes. -/
structure RetFile where
  dir : String
  name : String
  suffix : String
  content : ByteSeq
deriving DecidableEq

def filePath (f : RetFile) : String := f.dir ++ "/" ++ f.name ++ f.suffix

/-- `t183._store_authorization`: serialize, encrypt, and write
`{prefix}_{unix_timestamp}.enc` under the retention path. -/
def storeAuthorization (cfg : CryptoCfg) (r : T183Record) (baseDir : String) (taxYear : Nat)
    (originalSin : String) (pfx : String) : Except EncError RetFile := do
  let encrypted ← encrypt cfg (encodeRecord r)
  return { dir := retentionPath baseDir taxYear originalSin
           name := pfx ++ "_" ++ toString (epochSeconds r.filedAt)
           suffix := ".enc"
           content := encrypted }

/-- `t183.store_signed`. -/
def storeSigned (cfg : CryptoCfg) (r : T183Record) (baseDir : String) (taxYear : Nat)
    (originalSin : String) : Except EncError RetFile :=
  storeAuthorization cfg r baseDir taxYear originalSin "t183"

/-- The `rglob(f"{prefix}_*")` name filter. -/
def purgeMatches (pfx : String) (f : RetFile) : Bool :=
  (pfx ++ "_").data.isPrefixOf f.name.data

/-- The decrypt-and-parse pipeline of `_purge_authorizations`; any exception
in it is swallowed by the `except: continue`, which we model as `none`. -/
def readExpiry (cfg : CryptoCfg) (f : RetFile) : Option PyDateTime :=
  let payload : Option ByteSeq :=
    if f.suffix = ".enc" then (decrypt cfg f.content).toOption else some f.content
  payload.bind parseExpiry

/-- One file's fate in `t183._purge_authorizations`: deleted iff its name
matches the prefix glob, its suffix is `.json`/`.enc`, its record is readable,
and `expires_at <= check_time`. -/
def shouldRemove (cfg : CryptoCfg) (pfx : String) (checkTime : PyDateTime) (f : RetFile) : Bool :=
  purgeMatches pfx f && (f.suffix == ".json" || f.suffix == ".enc") &&
    (match readExpiry cfg f with
     | some e => dtLe e checkTime
     | none => false)

/-- `t183._purge_authorizations`: removed paths, and the files left behind. -/
def purgeAuthorizations (cfg : CryptoCfg) (files : List RetFile) (pfx : String)
    (asOf : Option PyDateTime) (now : PyDateTime) : List String × List RetFile :=
  let checkTime := asOf.getD now
  ((files.filter (shouldRemove cfg pfx checkTime)).map filePath,
   files.filter fun f => ! shouldRemove cfg pfx checkTime f)

/-- `t183.purge_expired`. -/
def purgeExpired (cfg : CryptoCfg) (files : List RetFile) (asOf : Option PyDateTime)
    (now : PyDateTime) : List String × List RetFile :=
  purgeAuthorizations cfg files "t183" asOf now

/-! ## Transmission client (`app/efile/transmit.py`)

The process-wide `_CIRCUITS[label]` entry becomes an explicit `CircuitState`
passed in and returned; `time.time()` becomes rational-valued oracles
(`now` for the call, `failTime i` for the clock read inside the i-th failure's
`_record_failure`); the network becomes an oracle `net i` giving attempt `i`'s
outcome — `.ok body` for a 2xx response, `.error msg` for any exception
(connection error, timeout, or `raise_for_status` on a non-2xx). -/

structure CircuitState where
  failures : Nat
  openUntil : ℚ
deriving DecidableEq, Repr

structure TransmitConfig where
  maxRetries : Nat
  backoff : ℚ
  circuitThreshold : Nat
  circuitCooldown : ℚ
deriving DecidableEq, Repr

/-- `EfileClient._state`: raise `CircuitOpenError` while `now < open_until`;
clear the breaker when a call arrives at or after `open_until`
(`open_until = 0.0` is falsy and means "not open"). -/
def circuitGate (st : CircuitState) (now : ℚ) : Except ℚ CircuitState :=
  if st.openUntil ≠ 0 ∧ now < st.openUntil then .error st.openUntil
  else if st.openUntil ≠ 0 ∧ st.openUntil ≤ now then .ok ⟨0, 0⟩
  else .ok st

/-- `EfileClient._record_failure`. -/
def recordFailure (st : CircuitState) (now cooldown : ℚ) (threshold : Nat) : CircuitState :=
  let f := st.failures + 1
  { failures := f
    openUntil := if threshold ≤ f then now + cooldown else st.openUntil }

/-- `EfileClient._record_success`. -/
def recordSuccess (_st : CircuitState) : CircuitState := ⟨0, 0⟩

inductive SendError
  | circuitOpen (openUntil : ℚ)
  | transmissionFailed (lastError : Option String)
deriving DecidableEq, Repr

/-- The observable behavior of one `send` call: its result, how many network
attempts it made, the backoff delays it slept (in order), and the circuit
state it leaves behind. -/
structure SendTrace where
  result : Except SendError String
  attempts : Nat
  sleeps : List ℚ
  state : CircuitState
deriving Repr

/-- The `while attempt < self.max_retries` loop of `EfileClient.send`.
`fuel` is `max_retries - attempt`; `attempt` counts failed attempts so far and
indexes the current try. -/
def sendLoop (cfg : TransmitConfig) (net : Nat → Except String String)
    (failTime : Nat → ℚ) :
    Nat → CircuitState → Nat → Option String → List ℚ → SendTrace
  | 0, st, attempt, lastError, sleeps =>
      ⟨.error (.transmissionFailed lastError), attempt, sleeps.reverse, st⟩
  | fuel + 1, st, attempt, lastError, sleeps =>
      match net attempt with
      | .ok body => ⟨.ok body, attempt + 1, sleeps.reverse, recordSuccess st⟩
      | .error exc =>
          let st' := recordFailure st (failTime attempt) cfg.circuitCooldown cfg.circuitThreshold
          let sleepFor := cfg.backoff * 2 ^ attempt
          sendLoop cfg net failTime fuel st' (attempt + 1) (some exc) (sleepFor :: sleeps)
  -- `sleep_for = backoff * 2 ** (attempt - 1)` after `attempt += 1`,
  -- i.e. `backoff * 2 ^ attempt` for the pre-increment value used here.

/-- `EfileClient.send`. -/
def send (cfg : TransmitConfig) (net : Nat → Except String String)
    (failTime : Nat → ℚ) (st : CircuitState) (now : ℚ) : SendTrace :=
  match circuitGate st now with
  | .error openUntil => ⟨.error (.circuitOpen openUntil), 0, [], st⟩
  | .ok st' => sendLoop cfg net failTime cfg.maxRetries st' 0 none []

/-! ## Prefile gate (`app/core/validate/pre_submit.py`)

Slip values reach the validators through `_get_value` + `_to_decimal`, which
yield the field's decimal value or `None` (both for pydantic slips, whose
fields are typed `Decimal | None`, and for dict-shaped slips); they are
modelled as `Option ℚ` fields.  `Decimal` is exact decimal arithmetic, so ℚ
models it faithfully on the comparisons performed here. -/

structure ValidationIssue where
  code : String
  message : String
  field : Option String := none
  severity : String := "error"
deriving DecidableEq, Repr

structure IssueTemplate where
  localCode : String
  cra : String
  message : String
deriving DecidableEq, Repr

def ISSUE_T4_MISSING_BOX14 : IssueTemplate :=
  ⟨"t4_missing_box_14", "60010", "T4 slip is missing employment income (Box 14)."⟩

def ISSUE_T4_NEGATIVE_AMOUNT : IssueTemplate :=
  ⟨"t4_negative_amount", "60011", "T4 slip amounts must be zero or positive."⟩

def ISSUE_T4_COUNT_LIMIT : IssueTemplate :=
  ⟨"t4_slip_count_exceeded", "60018", "T4 slip count exceeds CRA maximum of 50 per return."⟩

def ISSUE_T4_COUNT_MISMATCH : IssueTemplate :=
  ⟨"t4_slip_count_mismatch", "60012", "T4 slip summary count does not match provided slips."⟩

def ISSUE_T4A_MISSING_INCOME : IssueTemplate :=
  ⟨"t4a_missing_income", "60013",
   "T4A slip must include at least one income amount (boxes 16/18/20/48)."⟩

def ISSUE_T4A_NEGATIVE_AMOUNT : IssueTemplate :=
  ⟨"t4a_negative_amount", "60014", "T4A slip amounts must be zero or positive."⟩

def ISSUE_T4A_COUNT_LIMIT : IssueTemplate :=
  ⟨"t4a_slip_count_exceeded", "60018", "T4A slip count exceeds CRA maximum of 50 per return."⟩

def ISSUE_T4A_COUNT_MISMATCH : IssueTemplate :=
  ⟨"t4a_slip_count_mismatch", "60012", "T4A slip summary count does not match provided slips."⟩

def ISSUE_T5_MISSING_AMOUNT : IssueTemplate :=
  ⟨"t5_missing_income", "60015", "T5 slip must include at least one income or dividend amount."⟩

def ISSUE_T5_NEGATIVE_AMOUNT : IssueTemplate :=
  ⟨"t5_negative_amount", "60016", "T5 slip amounts must be zero or positive."⟩

def ISSUE_T5_FOREIGN_TAX : IssueTemplate :=
  ⟨"t5_foreign_tax_exceeds_income", "60017",
   "Foreign tax withheld on a T5 slip cannot exceed the related foreign income."⟩

def ISSUE_T5_COUNT_LIMIT : IssueTemplate :=
  ⟨"t5_slip_count_exceeded", "60018", "T5 slip count exceeds CRA maximum of 50 per return."⟩

def ISSUE_T5_COUNT_MISMATCH : IssueTemplate :=
  ⟨"t5_slip_count_mismatch", "60012", "T5 slip summary count does not match provided slips."⟩

def ISSUE_TUITION_NEGATIVE : IssueTemplate :=
  ⟨"tuition_negative_amount", "61010",
   "Tuition slips must report a non-negative eligible tuition amount."⟩

def ISSUE_TUITION_MONTHS : IssueTemplate :=
  ⟨"tuition_invalid_months", "61011",
   "Tuition slip months must be whole numbers between 0 and 12."⟩

def ISSUE_TUITION_CLAIM_NEGATIVE : IssueTemplate :=
  ⟨"tuition_claim_negative", "61012", "Tuition amount claimed cannot be negative."⟩

def ISSUE_TUITION_TRANSFER_NEGATIVE : IssueTemplate :=
  ⟨"tuition_transfer_negative", "61013", "Tuition amount transferred cannot be negative."⟩

def ISSUE_TUITION_CLAIM_EXCEEDS : IssueTemplate :=
  ⟨"tuition_claim_exceeds_total", "61014",
   "Tuition amount claimed exceeds the total eligible tuition."⟩

def ISSUE_TUITION_TRANSFER_EXCEEDS : IssueTemplate :=
  ⟨"tuition_transfer_exceeds_remaining", "61015",
   "Tuition amount transferred exceeds the remaining eligible tuition."⟩

def ISSUE_RRSP_NEGATIVE : IssueTemplate :=
  ⟨"rrsp_negative_amount", "30011", "RRSP contributions claimed must be zero or positive."⟩

/-- `_collect_efile`'s emitter (the `message_override` parameter is never
passed anywhere in the module). -/
def emitEfile (t : IssueTemplate) (field : Option String) : ValidationIssue :=
  ⟨t.cra, t.message, field, "error"⟩

def ALLOWED_PROVINCES : List String :=
  ["AB", "BC", "MB", "NB", "NL", "NS", "NT", "NU", "ON", "PE", "QC", "SK", "YT"]

def removeSpaces (s : String) : String := ⟨s.data.filter (· ≠ ' ')⟩

/-- Python `str.strip()`: whitespace removed at both ends. -/
def pyStrip (s : String) : String :=
  ⟨((s.data.dropWhile Char.isWhitespace).reverse.dropWhile Char.isWhitespace).reverse⟩

/-- Python `str.upper()` (ASCII, which is all the validators compare). -/
def pyUpper (s : String) : String := ⟨s.data.map Char.toUpper⟩

/-- Split a character list on a separator (Python `str.split(sep)`). -/
def splitOnChar (sep : Char) : List Char → List (List Char)
  | [] => [[]]
  | c :: rest =>
      match splitOnChar sep rest with
      | [] => if c = sep then [[], []] else [[c]]
      | grp :: groups => if c = sep then [] :: grp :: groups else (c :: grp) :: groups

/-- Python `int(s)` for an unsigned digit group: the digits' value, `None`
when empty or non-numeric. -/
def digitsToNat (l : List Char) : Option Nat :=
  if l ≠ [] ∧ l.all Char.isDigit then
    some (l.foldl (fun n c => n * 10 + (c.toNat - 48)) 0)
  else none

/-- `_validate_postal_code`. -/
def validatePostalCode (value : String) : Bool :=
  if value = "" ∨ (removeSpaces value).length ≠ 6 then false
  else
    match (pyUpper (removeSpaces value)).data with
    | [a, b, c, d, e, f] =>
        a.isAlpha && b.isDigit && c.isAlpha && d.isDigit && e.isAlpha && f.isDigit
    | _ => false

def luhnDouble (d : Nat) : Nat := if d * 2 > 9 then d * 2 - 9 else d * 2

/-- The checksum loop of `_luhn_valid`, over the reversed digits. -/
def luhnSum : List Nat → Bool → Nat
  | [], _ => 0
  | d :: rest, dbl => (if dbl then luhnDouble d else d) + luhnSum rest (!dbl)

/-- `_luhn_valid` (`int(ch)` raising on a non-digit returns `False`). -/
def luhnValid (value : String) : Bool :=
  if value.data.all Char.isDigit then
    luhnSum ((value.data.map (fun c => c.toNat - 48)).reverse) false % 10 == 0
  else false

/-- `_validate_tax_year`. -/
def validateTaxYear (year : Int) : Bool := year == 2024 || year == 2025

structure Identity where
  sinValue : String
  firstName : String
  lastName : String
  dobYyyyMmDd : String
  addressLine1 : String
  city : String
  province : String
  postalCode : String
deriving DecidableEq, Repr

/-- `datetime.strptime(s, "%Y-%m-%d")` succeeds: three dash-separated digit
groups (1–4 / 1–2 / 1–2 digits) that form a valid calendar date. -/
def validDobString (s : String) : Bool :=
  match splitOnChar '-' s.data with
  | [ys, ms, ds] =>
      match digitsToNat ys, digitsToNat ms, digitsToNat ds with
      | some y, some m, some d =>
          ys.length ≤ 4 && ms.length ≤ 2 && ds.length ≤ 2 && validDate y m d
      | _, _, _ => false
  | _ => false

/-- `_validate_identity_fields`. -/
def validateIdentityFields (idn : Identity) : List ValidationIssue :=
  (if idn.sinValue = "" ∨ idn.sinValue.length ≠ 9 ∨ ¬ idn.sinValue.data.all Char.isDigit
      ∨ ¬ luhnValid idn.sinValue then
    [⟨"10001", "SIN must be 9 numeric digits and pass Luhn checksum", some "sin", "error"⟩]
   else []) ++
  (if pyStrip idn.firstName = "" ∨ pyStrip idn.lastName = "" then
    [⟨"10002", "First and last name are required", some "name", "error"⟩] else []) ++
  (if ¬ validDobString idn.dobYyyyMmDd then
    [⟨"10003", "Date of birth must be YYYY-MM-DD", some "dob", "error"⟩] else []) ++
  (if pyStrip idn.addressLine1 = "" ∨ pyStrip idn.city = "" then
    [⟨"10004", "Mailing address must include street and city", some "address", "error"⟩]
   else []) ++
  (if ¬ ALLOWED_PROVINCES.contains (pyUpper idn.province) then
    [⟨"10005", "Province must be a valid two-letter Canadian code", some "province", "error"⟩]
   else []) ++
  (if ¬ validatePostalCode idn.postalCode then
    [⟨"10006", "Postal code must follow pattern A1A1A1", some "postal_code", "error"⟩]
   else [])

structure T4Slip where
  employmentIncome : Option ℚ
  taxDeducted : Option ℚ := none
  cppContrib : Option ℚ := none
  eiPremiums : Option ℚ := none
  pensionableEarnings : Option ℚ := none
  insurableEarnings : Option ℚ := none
deriving DecidableEq

structure T4ASlip where
  pensionIncome : Option ℚ := none
  otherIncome : Option ℚ := none
  selfEmploymentCommissions : Option ℚ := none
  researchGrants : Option ℚ := none
  taxDeducted : Option ℚ := none
deriving DecidableEq

structure T5Slip where
  interestIncome : Option ℚ := none
  eligibleDividends : Option ℚ := none
  otherDividends : Option ℚ := none
  capitalGains : Option ℚ := none
  foreignIncome : Option ℚ := none
  foreignTaxWithheld : Option ℚ := none
deriving DecidableEq

structure TuitionSlip where
  eligibleTuition : Option ℚ := none
  monthsFullTime : Option Int := none
  monthsPartTime : Option Int := none
deriving DecidableEq

/-- `_field_path`. -/
def fieldPath (collection : String) (index : Nat) (field : Option String) : String :=
  collection ++ "[" ++ toString index ++ "]" ++
    (match field with | some f => "." ++ f | none => "")

/-- `_validate_slip_counts` (`_MAX_SLIPS_PER_TYPE = 50`). -/
def validateSlipCounts (actual : Nat) (reported : Option Int)
    (limitT mismatchT : IssueTemplate) (collection : String) : List ValidationIssue :=
  (match reported with
   | some rc => if rc < 0 ∨ rc ≠ (actual : Int) then [emitEfile mismatchT (some collection)] else []
   | none => []) ++
  (if 50 < actual ∨ 50 < reported.getD 0 then [emitEfile limitT (some collection)] else [])
  -- `reported_count is not None and reported_count > 50`: for `none` the
  -- default 0 makes the second disjunct false, as in the source.

/-- A "field is present and negative" emission. -/
def negIssue (t : IssueTemplate) (collection : String) (index : Nat) (fieldName : String)
    (v : Option ℚ) : List ValidationIssue :=
  match v with
  | some x => if x < 0 then [emitEfile t (some (fieldPath collection index (some fieldName)))] else []
  | none => []

def hasPos (v : Option ℚ) : Bool :=
  match v with
  | some x => 0 < x
  | none => false

/-- Per-slip body of `_validate_t4_slips`. -/
def validateT4Slip (collection : String) (index : Nat) (slip : T4Slip) : List ValidationIssue :=
  (match slip.employmentIncome with
   | none =>
      [emitEfile ISSUE_T4_MISSING_BOX14 (some (fieldPath collection index (some "employment_income")))]
   | some income =>
      if income < 0 then
        [emitEfile ISSUE_T4_NEGATIVE_AMOUNT
          (some (fieldPath collection index (some "employment_income")))]
      else []) ++
  negIssue ISSUE_T4_NEGATIVE_AMOUNT collection index "tax_deducted" slip.taxDeducted ++
  negIssue ISSUE_T4_NEGATIVE_AMOUNT collection index "cpp_contrib" slip.cppContrib ++
  negIssue ISSUE_T4_NEGATIVE_AMOUNT collection index "ei_premiums" slip.eiPremiums ++
  negIssue ISSUE_T4_NEGATIVE_AMOUNT collection index "pensionable_earnings" slip.pensionableEarnings ++
  negIssue ISSUE_T4_NEGATIVE_AMOUNT collection index "insurable_earnings" slip.insurableEarnings

/-- `_validate_t4_slips`. -/
def validateT4Slips (slips : List T4Slip) (collection : String) (reported : Option Int) :
    List ValidationIssue :=
  validateSlipCounts slips.length reported ISSUE_T4_COUNT_LIMIT ISSUE_T4_COUNT_MISMATCH collection ++
  (slips.enum.map (fun p => validateT4Slip collection p.1 p.2)).flatten

/-- Per-slip body of `_validate_t4a_slips`. -/
def validateT4ASlip (collection : String) (index : Nat) (slip : T4ASlip) : List ValidationIssue :=
  let incomeFields : List (String × Option ℚ) :=
    [("pension_income", slip.pensionIncome), ("other_income", slip.otherIncome),
     ("self_employment_commissions", slip.selfEmploymentCommissions),
     ("research_grants", slip.researchGrants)]
  (incomeFields.map (fun p => negIssue ISSUE_T4A_NEGATIVE_AMOUNT collection index p.1 p.2)).flatten ++
  negIssue ISSUE_T4A_NEGATIVE_AMOUNT collection index "tax_deducted" slip.taxDeducted ++
  (if incomeFields.all (fun p => ¬ hasPos p.2) then
    [emitEfile ISSUE_T4A_MISSING_INCOME (some (fieldPath collection index none))] else [])

/-- `_validate_t4a_slips`. -/
def validateT4ASlips (slips : List T4ASlip) (collection : String) (reported : Option Int) :
    List ValidationIssue :=
  validateSlipCounts slips.length reported ISSUE_T4A_COUNT_LIMIT ISSUE_T4A_COUNT_MISMATCH collection ++
  (slips.enum.map (fun p => validateT4ASlip collection p.1 p.2)).flatten

/-- Per-slip body of `_validate_t5_slips` (`_to_decimal(...) or Decimal("0")`
collapses both a missing and a zero foreign income to 0). -/
def validateT5Slip (collection : String) (index : Nat) (slip : T5Slip) : List ValidationIssue :=
  let amountFields : List (String × Option ℚ) :=
    [("interest_income", slip.interestIncome), ("eligible_dividends", slip.eligibleDividends),
     ("other_dividends", slip.otherDividends), ("capital_gains", slip.capitalGains),
     ("foreign_income", slip.foreignIncome)]
  (amountFields.map (fun p => negIssue ISSUE_T5_NEGATIVE_AMOUNT collection index p.1 p.2)).flatten ++
  (match slip.foreignTaxWithheld with
   | some ft =>
      (if ft < 0 then
        [emitEfile ISSUE_T5_NEGATIVE_AMOUNT
          (some (fieldPath collection index (some "foreign_tax_withheld")))]
       else []) ++
      (if (slip.foreignIncome.getD 0) < ft then
        [emitEfile ISSUE_T5_FOREIGN_TAX
          (some (fieldPath collection index (some "foreign_tax_withheld")))]
       else [])
   | none => []) ++
  (if amountFields.all (fun p => ¬ hasPos p.2) then
    [emitEfile ISSUE_T5_MISSING_AMOUNT (some (fieldPath collection index none))] else [])

/-- `_validate_t5_slips`. -/
def validateT5Slips (slips : List T5Slip) (collection : String) (reported : Option Int) :
    List ValidationIssue :=
  validateSlipCounts slips.length reported ISSUE_T5_COUNT_LIMIT ISSUE_T5_COUNT_MISMATCH collection ++
  (slips.enum.map (fun p => validateT5Slip collection p.1 p.2)).flatten

/-- Per-slip body of `_validate_tuition_slips`: issues plus the slip's
contribution to the eligible-tuition total. -/
def tuitionSlipIssues (collection : String) (index : Nat) (slip : TuitionSlip) :
    List ValidationIssue × ℚ :=
  let amountField := fieldPath collection index (some "eligible_tuition")
  let head :=
    match slip.eligibleTuition with
    | none => ([emitEfile ISSUE_TUITION_NEGATIVE (some amountField)], (0 : ℚ))
    | some a =>
        if a < 0 then ([emitEfile ISSUE_TUITION_NEGATIVE (some amountField)], 0) else ([], a)
  let monthCheck := fun (fieldName : String) (v : Option Int) =>
    match v with
    | none => ([] : List ValidationIssue)
    | some m =>
        if m < 0 ∨ 12 < m then
          [emitEfile ISSUE_TUITION_MONTHS (some (fieldPath collection index (some fieldName)))]
        else []
  (head.1 ++ monthCheck "months_full_time" slip.monthsFullTime ++
    monthCheck "months_part_time" slip.monthsPartTime, head.2)

/-- `_validate_tuition_slips`. -/
def validateTuitionSlips (slips : List TuitionSlip) (collection : String) :
    List ValidationIssue × ℚ :=
  slips.enum.foldl
    (fun acc p =>
      let r := tuitionSlipIssues collection p.1 p.2
      (acc.1 ++ r.1, acc.2 + r.2))
    ([], 0)

/-- `_validate_tuition_claims`. -/
def validateTuitionClaims (total : ℚ) (claim transfer : Option ℚ) : List ValidationIssue :=
  (match claim with
   | some c => if c < 0 then [emitEfile ISSUE_TUITION_CLAIM_NEGATIVE (some "tuition_claim")] else []
   | none => []) ++
  (match transfer with
   | some t =>
      if t < 0 then [emitEfile ISSUE_TUITION_TRANSFER_NEGATIVE (some "tuition_transfer_to_spouse")]
      else []
   | none => []) ++
  (let claimNonNeg := match claim with | some c => if 0 < c then c else 0 | none => 0
   let transferNonNeg := match transfer with | some t => if 0 < t then t else 0 | none => 0
   (if total < claimNonNeg then [emitEfile ISSUE_TUITION_CLAIM_EXCEEDS (some "tuition_claim")] else []) ++
   (if total < claimNonNeg + transferNonNeg then
     [emitEfile ISSUE_TUITION_TRANSFER_EXCEEDS (some "tuition_transfer_to_spouse")] else []))

/-- `_validate_rrsp_amount`. -/
def validateRrspAmount (v : Option ℚ) : List ValidationIssue :=
  match v with
  | some a => if a < 0 then [emitEfile ISSUE_RRSP_NEGATIVE (some "rrsp_contrib")] else []
  | none => []

/-- The `return_payload` dict as `validate_before_efile` reads it (absent keys
are `None`, i.e. `none`/`[]`). -/
structure ReturnPayload where
  taxableIncome : ℚ
  province : Option String := none
  taxYear : Option Int := none
  t183SignedTs : Option String := none
  t183IpHash : Option String := none
  t183UserAgentHash : Option String := none
  slipsT4 : List T4Slip := []
  slipsT4Count : Option Int := none
  slipsT4a : List T4ASlip := []
  slipsT4aCount : Option Int := none
  slipsT5 : List T5Slip := []
  slipsT5Count : Option Int := none
  tuitionSlips : List TuitionSlip := []
  tuitionClaim : Option ℚ := none
  tuitionTransferToSpouse : Option ℚ := none
  rrspContrib : Option ℚ := none
deriving DecidableEq

/-- Python string truthiness of an optional string. -/
def pyTruthy (o : Option String) : Bool := o.getD "" ≠ ""

/-- Python `a or b` on strings. -/
def pyOrS (a b : String) : String := if a ≠ "" then a else b

/-- `validate_before_efile`: identity checks, payload checks, then the slip
validators, all issues collected in order. -/
def validateBeforeEfile (idn : Identity) (p : ReturnPayload) : List ValidationIssue :=
  validateIdentityFields idn ++
  (if p.taxableIncome < 0 then
    [⟨"30010", "Taxable income cannot be negative", some "taxable_income", "error"⟩] else []) ++
  (if ¬ ALLOWED_PROVINCES.contains
      (pyUpper (pyOrS (p.province.getD "") (pyOrS idn.province ""))) then
    [⟨"10005", "Province must be a valid two-letter Canadian code", some "province", "error"⟩]
   else []) ++
  (match p.taxYear with
   | some y =>
      if ¬ validateTaxYear y then
        [⟨"20001", "Unsupported or closed tax year for EFILE transmission", some "tax_year", "error"⟩]
      else []
   | none => []) ++
  (if ¬ pyTruthy p.t183SignedTs then
    [⟨"50010", "T183 signature timestamp is required before transmission", some "t183", "error"⟩]
   else []) ++
  (if ¬ pyTruthy p.t183IpHash ∨ ¬ pyTruthy p.t183UserAgentHash then
    [⟨"50011", "T183 IP/User-Agent hashes must be captured before transmission", some "t183", "error"⟩]
   else []) ++
  validateT4Slips p.slipsT4 "slips_t4" p.slipsT4Count ++
  validateT4ASlips p.slipsT4a "slips_t4a" p.slipsT4aCount ++
  validateT5Slips p.slipsT5 "slips_t5" p.slipsT5Count ++
  (let r := validateTuitionSlips p.tuitionSlips "tuition_slips"
   r.1 ++ validateTuitionClaims r.2 p.tuitionClaim p.tuitionTransferToSpouse) ++
  validateRrspAmount p.rrspContrib

/-! ## Domain records (`app/core/models.py`)

Only the fields the EFILE core reads are carried: `enforce_prefile_gates`
forwards no slip collections, and `map_t1_fields` reads taxpayer, household
and the calculated line items; the slip/deduction collections of the pydantic
`ReturnInput` belong to the excluded calculation/validation collaborators. -/

structure Taxpayer where
  sin : String
  firstName : String
  lastName : String
  dob : PyDate
  addressLine1 : String
  city : String
  province : String
  postalCode : String
  residencyStatus : String
deriving DecidableEq

structure Household where
  maritalStatus : String
  spouseSin : Option String := none
  dependants : List String := []
deriving DecidableEq

structure ReturnInput where
  taxpayer : Taxpayer
  household : Option Household := none
  t183SignedTs : Option PyDateTime := none
  t183IpHash : Option String := none
  t183UserAgentHash : Option String := none
  t183PdfPath : Option String := none
  province : String := "ON"
  taxYear : Int := 2025
deriving DecidableEq

/-- `ReturnCalc` (the `cpp`/`ei` breakdowns are not read by the EFILE core). -/
structure ReturnCalc where
  taxYear : Int
  province : String
  lineItems : List (String × ℚ)
  totals : List (String × ℚ)
deriving DecidableEq

/-! ## Envelope builder (`app/efile/t619.py`) -/

def NS_T1 : String := "http://www.cra-arc.gc.ca/xmlns/efile/t1/1.0"

def NS_T183 : String := "http://www.cra-arc.gc.ca/xmlns/efile/t183/1.0"

def NS_T619 : String := "http://www.cra-arc.gc.ca/xmlns/efile/t619/1.0"

def SCHEMA_T1 : String := "cra_t1_return_v1.xsd"

def SCHEMA_T183 : String := "cra_t183_authorization_v1.xsd"

def SCHEMA_T619 : String := "cra_t619_envelope_v1.xsd"

/-- A value of the `dict[str, Any]` trees fed to `_append_children`: a scalar
already rendered by `str(...)`, `None`, a nested dict, or a list. -/
inductive XVal where
  | vstr (v : String)
  | vnone
  | vdict (fields : List (String × XVal))
  | vlist (items : List XVal)

/-- `str(item)` for a scalar list item (`_append_children`'s list branch);
the field mappers never nest containers inside lists. -/
def scalarText : XVal → String
  | .vstr v => v
  | .vnone => "None"
  | _ => ""

/-- An `xml.etree` element: tag, attributes, text, children. -/
inductive XElem where
  | node (tag : String) (attrs : List (String × String)) (text : Option String)
      (children : List XElem)

mutual

/-- `t619._append_children`. -/
def appendChildren : List (String × XVal) → List XElem
  | [] => []
  | (k, v) :: rest => elemsFor k v ++ appendChildren rest

/-- The elements one key/value pair contributes. -/
def elemsFor (k : String) : XVal → List XElem
  | .vnone => []
  | .vstr v => [.node k [] (some v) []]
  | .vdict fields => [.node k [] none (appendChildren fields)]
  | .vlist items => listElems k items

/-- The repeated children for a list-valued key. -/
def listElems (k : String) : List XVal → List XElem
  | [] => []
  | item :: rest =>
      (match item with
       | .vdict fields => XElem.node k [] none (appendChildren fields)
       | other => XElem.node k [] (some (scalarText other)) []) :: listElems k rest

end

/-- minidom's text escaping (`&`, `<`, `>`). -/
def xmlEscape (s : String) : String :=
  ((s.replace "&" "&amp;").replace "<" "&lt;").replace ">" "&gt;"

/-- minidom's attribute escaping (text escapes plus `"`). -/
def attrEscape (s : String) : String := (xmlEscape s).replace "\"" "&quot;"

def indentStr (n : Nat) : String := ⟨List.replicate (2 * n) ' '⟩

mutual

/-- `t619._prettify`'s per-element output: `tostring` +
`minidom.toprettyxml(indent="  ")` — one line per element, two-space
indentation, `<tag/>` for an empty element (an empty `text` is falsy for
`ElementTree` and serializes like no text). -/
def renderElem (depth : Nat) : XElem → String
  | .node tag attrs text children =>
      let opening := indentStr depth ++ "<" ++ tag ++
        String.join (attrs.map (fun a => " " ++ a.1 ++ "=\"" ++ attrEscape a.2 ++ "\""))
      match children, text with
      | [], none => opening ++ "/>\n"
      | [], some t =>
          if t = "" then opening ++ "/>\n"
          else opening ++ ">" ++ xmlEscape t ++ "</" ++ tag ++ ">\n"
      | cs, _ => opening ++ ">\n" ++ renderChildren (depth + 1) cs ++ indentStr depth ++
          "</" ++ tag ++ ">\n"

def renderChildren (depth : Nat) : List XElem → String
  | [] => ""
  | c :: rest => renderElem depth c ++ renderChildren depth rest

end

/-- `t619._prettify` (with `encoding="utf-8"` minidom emits the encoding in
the declaration). -/
def prettify (root : XElem) : String :=
  "<?xml version=\"1.0\" encoding=\"utf-8\"?>\n" ++ renderElem 0 root

def buildT1Element (data : List (String × XVal)) : XElem :=
  .node "T1Return" [("xmlns", NS_T1)] none (appendChildren data)

def buildT183Element (data : List (String × XVal)) : XElem :=
  .node "T183Authorization" [("xmlns", NS_T183)] none (appendChildren data)

/-- `t619._build_t619_element`. -/
def buildT619Element (profile : List (String × String)) (payloadB64 sbmtRefId : String) : XElem :=
  .node "T619Transmission" [("xmlns", NS_T619)] none
    (XElem.node "sbmt_ref_id" [] (some sbmtRefId) [] ::
      profile.map (fun p => XElem.node p.1 [] (some p.2) []) ++
      [XElem.node "Payload" [] (some payloadB64) []])

/-- Banker's rounding, `Decimal.quantize`'s default `ROUND_HALF_EVEN`. -/
def roundHalfEven (q : ℚ) : Int :=
  let fl := ⌊q⌋
  let fr := q - fl
  if fr < 1 / 2 then fl
  else if 1 / 2 < fr then fl + 1
  else if fl % 2 = 0 then fl else fl + 1

/-- `t619._format_decimal`: `None` → `"0.00"`, otherwise quantize to cents and
print in plain (non-scientific) decimal. -/
def formatDecimal (v : Option ℚ) : String :=
  match v with
  | none => "0.00"
  | some q =>
      let cents := roundHalfEven (q * 100)
      let mag := cents.natAbs
      (if cents < 0 then "-" else "") ++ toString (mag / 100) ++ "." ++ natPad 2 (mag % 100)

def householdVal : Option Household → XVal
  | none => .vnone
  | some h =>
      .vdict
        ([("MaritalStatus", XVal.vstr h.maritalStatus)] ++
         (match h.spouseSin with
          | some s => if s ≠ "" then [("SpouseSIN", XVal.vstr s)] else []
          | none => []) ++
         (if h.dependants ≠ [] then
           [("Dependants", XVal.vdict
             [("DependantsCount", XVal.vstr (toString h.dependants.length))])]
          else []))

/-- `t619.map_t1_fields` (dict insertion order preserved; the `Household`
key is created as `None` and overwritten in place when a household exists). -/
def mapT1Fields (req : ReturnInput) (rc : ReturnCalc) : List (String × XVal) :=
  [("TaxYear", .vstr (toString rc.taxYear)),
   ("Taxpayer", .vdict
     [("SIN", .vstr req.taxpayer.sin),
      ("FirstName", .vstr req.taxpayer.firstName),
      ("LastName", .vstr req.taxpayer.lastName),
      ("DateOfBirth", .vstr (dateIso req.taxpayer.dob)),
      ("Address", .vdict
        [("Line1", .vstr req.taxpayer.addressLine1),
         ("City", .vstr req.taxpayer.city),
         ("Province", .vstr req.taxpayer.province),
         ("PostalCode", .vstr req.taxpayer.postalCode)]),
      ("ResidencyStatus", .vstr req.taxpayer.residencyStatus)]),
   ("Household", householdVal req.household),
   ("LineItems", .vdict
     [("IncomeTotal", .vstr (formatDecimal (rc.lineItems.lookup "income_total"))),
      ("TaxableIncome", .vstr (formatDecimal (rc.lineItems.lookup "taxable_income"))),
      ("FederalTax", .vstr (formatDecimal (rc.lineItems.lookup "federal_tax"))),
      ("ProvincialTax", .vstr (formatDecimal (rc.lineItems.lookup "prov_tax")))]),
   ("Totals", .vdict [("NetTax", .vstr (formatDecimal (rc.totals.lookup "net_tax")))])]

/-- The authorization tree `map_t183_fields` builds for a signed request:
signature block with `ExpiresAt = signedAt + 90 days`, optional `IPAddress` /
`UserAgentHash` / `Consent` entries only when their values are truthy. -/
def t183Data (req : ReturnInput) (signedAt : PyDateTime) : List (String × XVal) :=
  let expiresAt := addDays signedAt 90
  [("TaxpayerSINMasked", XVal.vstr (maskSin req.taxpayer.sin)),
   ("TaxpayerName", XVal.vdict
     [("FirstName", XVal.vstr req.taxpayer.firstName),
      ("LastName", XVal.vstr req.taxpayer.lastName)]),
   ("TaxpayerDOB", XVal.vstr (dateIso req.taxpayer.dob)),
   ("Signature", XVal.vdict
     ([("SignedAt", XVal.vstr (dtIso signedAt)),
       ("ExpiresAt", XVal.vstr (dtIso expiresAt))] ++
      (if pyTruthy req.t183IpHash then
        [("IPAddress", XVal.vstr (req.t183IpHash.getD ""))] else []) ++
      (if pyTruthy req.t183UserAgentHash then
        [("UserAgentHash", XVal.vstr (req.t183UserAgentHash.getD ""))] else [])))] ++
  (if pyTruthy req.t183PdfPath then
    [("Consent", XVal.vdict [("DocumentPath", XVal.vstr (req.t183PdfPath.getD ""))])]
   else [])

/-- `t619.map_t183_fields`: raises `ValueError` without a signing timestamp;
otherwise the authorization tree. -/
def mapT183Fields (req : ReturnInput) : Except String (List (String × XVal)) :=
  match req.t183SignedTs with
  | none => .error "T183 signature timestamp is required for CRA payload"
  | some signedAt => .ok (t183Data req signedAt)

/-- Modelled from the spec: `t619._serialize_payload` compresses the
name-sorted documents with `zipfile` (fixed date/permission metadata) and
`base64`-encodes the archive — both standard-library primitives external to
the repository.  The spec requires only a deterministic function of the
name-sorted document list, modelled here as a textual packing. -/
def serializePayload (documents : List (String × String)) : String :=
  String.intercalate "|"
    (((documents.map Prod.fst).mergeSort (fun a b => a ≤ b)).map
      (fun n => n ++ ".xml:" ++ (documents.lookup n).getD ""))

/-- Modelled from the spec: `t619._get_schema`/`_validate` compile the named
XSD from the provided cache (`ValueError` when it was never loaded) and then
validate via the external `xmlschema` library; no claim depends on a schema
violation, so validation of a loaded schema is modelled as succeeding. -/
def validateSchema (schemaCache : List (String × String)) (name : String) :
    Except String Unit :=
  if (schemaCache.lookup name).isSome then .ok ()
  else .error ("Schema " ++ name ++ " not loaded")

structure T619Package where
  sbmtRefId : String
  t1Xml : String
  t183Xml : String
  envelopeXml : String
  payloadDocuments : List (String × String)
deriving DecidableEq

/-- `t619.build_t619_package`. -/
def buildT619Package (req : ReturnInput) (rc : ReturnCalc)
    (profile : List (String × String)) (schemaCache : List (String × String))
    (sbmtRefId : String) : Except String T619Package := do
  let t1Data := mapT1Fields req rc
  let t183Data ← mapT183Fields req
  let t1Xml := prettify (buildT1Element t1Data)
  let t183Xml := prettify (buildT183Element t183Data)
  let _ ← validateSchema schemaCache SCHEMA_T1
  let _ ← validateSchema schemaCache SCHEMA_T183
  let payloadDocuments := [("T1Return", t1Xml), ("T183Authorization", t183Xml)]
  let payloadBlob := serializePayload payloadDocuments
  let envelopeXml := prettify (buildT619Element profile payloadBlob sbmtRefId)
  let _ ← validateSchema schemaCache SCHEMA_T619
  return { sbmtRefId := sbmtRefId, t1Xml := t1Xml, t183Xml := t183Xml,
           envelopeXml := envelopeXml, payloadDocuments := payloadDocuments }

/-! ## Digest/dedup guard and submission service (`app/efile/service.py`) -/

/-- The canonical byte source of the digest (service.py line 155): the six
components concatenated with **no delimiter**. -/
def canonicalSource (t1Xml t183Xml environment softwareId softwareVersion
    transmitterId : String) : String :=
  t1Xml ++ t183Xml ++ environment ++ softwareId ++ softwareVersion ++ transmitterId

/-- `sha256(canonical_source).hexdigest()`. -/
def digestOf (t1Xml t183Xml environment softwareId softwareVersion
    transmitterId : String) : String :=
  sha256hex (strBytes
    (canonicalSource t1Xml t183Xml environment softwareId softwareVersion transmitterId))

/-- `config.EfileProfile`. -/
structure EfileProfile where
  environment : String
  softwareId : String
  softwareVersion : String
  transmitterId : String
  endpoint : Option String
deriving DecidableEq

/-- The `profile_dict` assembled in `prepare_xml_submission`. -/
def profileDict (p : EfileProfile) : List (String × String) :=
  [("Environment", p.environment), ("SoftwareId", p.softwareId),
   ("SoftwareVersion", p.softwareVersion), ("TransmitterId", p.transmitterId)]

/-- `records.EfileEnvelope`. -/
structure EfileEnvelope where
  softwareId : String
  softwareVer : String
  transmitterId : String
  environment : String
deriving DecidableEq

structure PreparedEfile where
  envelope : EfileEnvelope
  package : T619Package
  digest : String
  sbmtRefId : String
  xmlBytes : ByteSeq
  endpoint : String
deriving DecidableEq

inductive EfileError
  | prefileValidation (issues : List ValidationIssue)
  | buildFailure (message : String)
  | httpError (status : Nat) (detail : String)
deriving DecidableEq

structure SummaryEntry where
  digest : String
  sbmtRefId : String
  timeUtc : String
  documents : List String
deriving DecidableEq

/-- The process/filesystem state `prepare_xml_submission` touches:
`app.state.submission_digests`, artifact files (path ↦ content, in write
order), per-day summary entries (path ↦ entry, appended), the summary index
(`dict` assignment modelled by prepending, `lookup` finds the newest), and
`app.state.last_sbmt_ref_id`. -/
structure ServiceState where
  submissionDigests : List String
  artifacts : List (String × String) := []
  summaries : List (String × SummaryEntry) := []
  summaryIndex : List (String × String) := []
  lastSbmtRefId : Option String := none
deriving DecidableEq

/-- `service._build_identity`. -/
def buildIdentity (req : ReturnInput) : Identity :=
  { sinValue := req.taxpayer.sin
    firstName := req.taxpayer.firstName
    lastName := req.taxpayer.lastName
    dobYyyyMmDd := dateIso req.taxpayer.dob
    addressLine1 := req.taxpayer.addressLine1
    city := req.taxpayer.city
    province := req.taxpayer.province
    postalCode := req.taxpayer.postalCode }

/-- The payload dict `enforce_prefile_gates` passes to
`validate_before_efile`: six keys, no slip collections. -/
def gatePayload (req : ReturnInput) (rc : ReturnCalc) : ReturnPayload :=
  { taxableIncome := (rc.lineItems.lookup "taxable_income").getD 0
    province := some req.province
    taxYear := some req.taxYear
    t183SignedTs := some (match req.t183SignedTs with | some ts => dtIso ts | none => "")
    t183IpHash := req.t183IpHash
    t183UserAgentHash := req.t183UserAgentHash }

/-- `service.enforce_prefile_gates`: raises `PrefileValidationError` on any
issue. -/
def enforcePrefileGates (req : ReturnInput) (rc : ReturnCalc) : Except EfileError Unit :=
  let issues := validateBeforeEfile (buildIdentity req) (gatePayload req rc)
  if issues = [] then .ok () else .error (.prefileValidation issues)

/-- `service._resolve_endpoint`. -/
def resolveEndpoint (profile : EfileProfile) (endpointOverride : Option String) :
    Except EfileError String :=
  if pyTruthy endpointOverride then .ok (endpointOverride.getD "")
  else if pyTruthy profile.endpoint then .ok (profile.endpoint.getD "")
  else .error (.httpError 400 "No EFILE endpoint configured for current environment")

/-- `service._persist_artifacts`: the three artifact files, the appended
daily-summary entry, and the summary-index update. -/
def persistArtifacts (st : ServiceState) (digest : String) (package : T619Package)
    (artifactRoot summaryRoot today nowStr : String) : ServiceState :=
  let pfx := package.sbmtRefId ++ "_" ++ digest
  let dayDir := artifactRoot ++ "/" ++ today
  let summaryPath := summaryRoot ++ "/" ++ today ++ ".json"
  let entry : SummaryEntry :=
    ⟨digest, package.sbmtRefId, nowStr, package.payloadDocuments.map Prod.fst⟩
  { st with
    artifacts := st.artifacts ++
      [(dayDir ++ "/" ++ pfx ++ "_envelope.xml", package.envelopeXml),
       (dayDir ++ "/" ++ pfx ++ "_t1.xml", package.t1Xml),
       (dayDir ++ "/" ++ pfx ++ "_t183.xml", package.t183Xml)]
    summaries := st.summaries ++ [(summaryPath, entry)]
    summaryIndex := (digest, summaryPath) :: st.summaryIndex }

/-- `service.prepare_xml_submission`, with the nondeterministic inputs
(`_generate_sbmt_ref_id`, the clock, configured roots) passed in.  The state
is returned alongside the outcome — a raised exception leaves behind exactly
the mutations made before the raise, just as in Python. -/
def prepareXmlSubmission (st : ServiceState) (req : ReturnInput) (rc : ReturnCalc)
    (profile : EfileProfile) (schemaCache : List (String × String))
    (sbmtRefId : String) (endpointOverride : Option String)
    (artifactRoot summaryRoot today nowStr : String) :
    ServiceState × Except EfileError PreparedEfile :=
  match enforcePrefileGates req rc with
  | .error e => (st, .error e)
  | .ok _ =>
    match buildT619Package req rc (profileDict profile) schemaCache sbmtRefId with
    | .error msg => (st, .error (.buildFailure msg))
    | .ok package =>
      let digest := digestOf package.t1Xml package.t183Xml profile.environment
        profile.softwareId profile.softwareVersion profile.transmitterId
      let xmlBytes := strBytes package.envelopeXml
      if digest ∈ st.submissionDigests then
        (st, .error (.httpError 409 "Duplicate submission digest detected"))
      else
        let envelope : EfileEnvelope :=
          ⟨profile.softwareId, profile.softwareVersion, profile.transmitterId,
           profile.environment⟩
        match resolveEndpoint profile endpointOverride with
        | .error e => (st, .error e)
        | .ok endpoint =>
          let st1 := persistArtifacts st digest package artifactRoot summaryRoot today nowStr
          let st2 := { st1 with
            submissionDigests := digest :: st1.submissionDigests
            lastSbmtRefId := some sbmtRefId }
          (st2, .ok ⟨envelope, package, digest, sbmtRefId, xmlBytes, endpoint⟩)

/-- The return-document XML a successful build produces. -/
def t1XmlOf (req : ReturnInput) (rc : ReturnCalc) : String :=
  prettify (buildT1Element (mapT1Fields req rc))

/-- The authorization-document XML a successful build produces. -/
def t183XmlOf (req : ReturnInput) (signedAt : PyDateTime) : String :=
  prettify (buildT183Element (t183Data req signedAt))

/-- The package `build_t619_package` returns on success. -/
def mkT619 (req : ReturnInput) (rc : ReturnCalc) (profile : List (String × String))
    (sbmtRefId : String) (signedAt : PyDateTime) : T619Package :=
  { sbmtRefId := sbmtRefId
    t1Xml := t1XmlOf req rc
    t183Xml := t183XmlOf req signedAt
    envelopeXml := prettify (buildT619Element profile
      (serializePayload
        [("T1Return", t1XmlOf req rc), ("T183Authorization", t183XmlOf req signedAt)])
      sbmtRefId)
    payloadDocuments :=
      [("T1Return", t1XmlOf req rc), ("T183Authorization", t183XmlOf req signedAt)] }

/-- The digest `prepare_xml_submission` computes for a given return,
calculation and profile — independent of the per-attempt reference id, which
enters only the envelope. -/
def builtDigest (req : ReturnInput) (rc : ReturnCalc) (profile : EfileProfile)
    (signedAt : PyDateTime) : String :=
  digestOf (t1XmlOf req rc) (t183XmlOf req signedAt) profile.environment
    profile.softwareId profile.softwareVersion profile.transmitterId

/-! ## Theorems -/

/-- C10: `mask_sin` is total and never reveals more than the last 4
characters — an input of length exactly 9 maps to `"***-***-"` followed by
its last 4 characters, and every other input (empty included) maps to the
fully masked constant `"***-***-****"`. -/
theorem maskSin_spec (s : String) :
    (s.length = 9 → maskSin s = "***-***-" ++ String.mk (s.data.drop 5)) ∧
    (s.length ≠ 9 → maskSin s = "***-***-****") := by
  constructor
  · intro h9
    have hne : s ≠ "" := by
      intro h
      rw [h] at h9
      simp at h9
    have h4 : ¬ s.length ≤ 4 := by omega
    simp [maskSin, pySliceLast4, hne, h9, h4]
  · intro hne9
    simp [maskSin, hne9]

/-- Witness for the C10 theorem at a 9-character input and a short input. -/
theorem maskSin_spec_witness :
    ("123456789".length = 9 ∧
      maskSin "123456789" = "***-***-" ++ String.mk ("123456789".data.drop 5)) ∧
    ("1234".length ≠ 9 ∧ maskSin "1234" = "***-***-****") :=
  ⟨⟨by decide, (maskSin_spec "123456789").1 (by decide)⟩,
   ⟨by decide, (maskSin_spec "1234").2 (by decide)⟩⟩

/-- C7 (amended): with a configured key, `decrypt (encrypt data) = data` and a
corrupt ciphertext fails with `EncryptionError`; with **no** key configured
both `encrypt` and `decrypt` succeed as the identity (the deliberate
plaintext fallback of §4.6) instead of failing; a malformed configured key
fails both with `EncryptionError`. -/
theorem crypto_roundtrip_amended (k : Nat) (data corrupt : ByteSeq)
    (hcorrupt : fernetDecrypt k corrupt = none) :
    (encrypt (.goodKey k) data = .ok (fernetEncrypt k data) ∧
      decrypt (.goodKey k) (fernetEncrypt k data) = .ok data) ∧
    (encrypt .noKey data = .ok data ∧ decrypt .noKey data = .ok data) ∧
    decrypt (.goodKey k) corrupt = .error ⟨"Failed to decrypt T183 record"⟩ ∧
    (encrypt .badKey data = .error ⟨"Invalid T183 crypto key provided"⟩ ∧
      decrypt .badKey data = .error ⟨"Invalid T183 crypto key provided"⟩) := by
  refine ⟨⟨rfl, ?_⟩, ⟨rfl, rfl⟩, ?_, rfl, rfl⟩
  · simp [decrypt, cipherOf, fernetEncrypt, fernetDecrypt, Bind.bind, Except.bind,
      pure, Except.pure]
  · simp [decrypt, cipherOf, Bind.bind, Except.bind, hcorrupt]
    rfl

/-- Witness for the C7 theorem: key 7, payload `[1,2,3]`, corrupt bytes `[0]`. -/
theorem crypto_roundtrip_witness :
    fernetDecrypt 7 [0] = none ∧
    ((encrypt (.goodKey 7) [1, 2, 3] = .ok (fernetEncrypt 7 [1, 2, 3]) ∧
       decrypt (.goodKey 7) (fernetEncrypt 7 [1, 2, 3]) = .ok [1, 2, 3]) ∧
     (encrypt .noKey [1, 2, 3] = .ok [1, 2, 3] ∧ decrypt .noKey [1, 2, 3] = .ok [1, 2, 3]) ∧
     decrypt (.goodKey 7) [0] = .error ⟨"Failed to decrypt T183 record"⟩ ∧
     (encrypt .badKey [1, 2, 3] = .error ⟨"Invalid T183 crypto key provided"⟩ ∧
       decrypt .badKey [1, 2, 3] = .error ⟨"Invalid T183 crypto key provided"⟩)) :=
  ⟨rfl, crypto_roundtrip_amended 7 [1, 2, 3] [0] rfl⟩

/-- C7 counterexample: with no key configured and a Fernet token supplied
(the "ciphertext is expected" situation), `decrypt` — and likewise
`encrypt` — succeed as the identity instead of failing with
`EncryptionError`, contradicting the claim as stated. -/
theorem crypto_noKey_counterexample :
    decrypt .noKey (fernetEncrypt 7 [1, 2, 3]) = .ok (fernetEncrypt 7 [1, 2, 3]) ∧
    encrypt .noKey (fernetEncrypt 7 [1, 2, 3]) = .ok (fernetEncrypt 7 [1, 2, 3]) :=
  ⟨rfl, rfl⟩

/-- C4 (amended): the digest is a function of the canonical source alone —
the six components concatenated **without** delimiters — so identical
(return xml, authorization xml, environment, software id, version,
transmitter id) tuples always produce identical digests, and so do any two
tuples whose concatenations coincide. -/
theorem digestOf_deterministic
    (t1 t183 env sid sver tid u1 u183 env' sid' sver' tid' : String)
    (h : canonicalSource t1 t183 env sid sver tid =
      canonicalSource u1 u183 env' sid' sver' tid') :
    digestOf t1 t183 env sid sver tid = digestOf u1 u183 env' sid' sver' tid' := by
  unfold digestOf
  rw [h]

/-- Witness for the C4 theorem: computing the digest twice on an identical
tuple yields the same value. -/
theorem digestOf_deterministic_witness :
    canonicalSource "<t1/>" "<t183/>" "CERT" "TAXAPP-CERT" "0.0.3" "900000" =
      canonicalSource "<t1/>" "<t183/>" "CERT" "TAXAPP-CERT" "0.0.3" "900000" ∧
    digestOf "<t1/>" "<t183/>" "CERT" "TAXAPP-CERT" "0.0.3" "900000" =
      digestOf "<t1/>" "<t183/>" "CERT" "TAXAPP-CERT" "0.0.3" "900000" :=
  ⟨rfl, digestOf_deterministic _ _ _ _ _ _ _ _ _ _ _ _ rfl⟩

/-- C4 counterexample: the tuples `("ab","c",…)` and `("a","bc",…)` differ in
their first two components yet concatenate to the same canonical source, so
their SHA-256 digests are equal — refuting "if any one of those six
components differs then the digests differ". -/
theorem digestOf_collision_counterexample :
    digestOf "ab" "c" "CERT" "S" "V" "T" = digestOf "a" "bc" "CERT" "S" "V" "T" ∧
    ("ab", "c", "CERT", "S", "V", "T") ≠ ("a", "bc", "CERT", "S", "V", "T") := by
  constructor
  · unfold digestOf
    exact congrArg (fun s => sha256hex (strBytes s)) (by decide)
  · decide

/-- With a signing timestamp present and the three schemas loaded,
`build_t619_package` succeeds with the expected package. -/
theorem buildT619Package_ok (req : ReturnInput) (rc : ReturnCalc)
    (profile : List (String × String)) (schemaCache : List (String × String))
    (sbmtRefId : String) (ts : PyDateTime)
    (hts : req.t183SignedTs = some ts)
    (h1 : (schemaCache.lookup SCHEMA_T1).isSome = true)
    (h2 : (schemaCache.lookup SCHEMA_T183).isSome = true)
    (h3 : (schemaCache.lookup SCHEMA_T619).isSome = true) :
    buildT619Package req rc profile schemaCache sbmtRefId =
      .ok (mkT619 req rc profile sbmtRefId ts) := by
  simp [buildT619Package, mapT183Fields, hts, validateSchema, h1, h2, h3,
    Bind.bind, Except.bind, pure, Except.pure, mkT619, t1XmlOf, t183XmlOf]

/-- A gate-clean, schema-loaded, fresh-digest call of
`prepare_xml_submission` succeeds: it persists the artifacts, registers the
digest, and returns the prepared package. -/
theorem prepare_first_run (st : ServiceState) (req : ReturnInput) (rc : ReturnCalc)
    (profile : EfileProfile) (schemaCache : List (String × String))
    (sbmtRefId : String) (endpointOverride : Option String) (aR sR td ns : String)
    (ts : PyDateTime) (ep : String)
    (hts : req.t183SignedTs = some ts)
    (h1 : (schemaCache.lookup SCHEMA_T1).isSome = true)
    (h2 : (schemaCache.lookup SCHEMA_T183).isSome = true)
    (h3 : (schemaCache.lookup SCHEMA_T619).isSome = true)
    (hgate : validateBeforeEfile (buildIdentity req) (gatePayload req rc) = [])
    (hnew : builtDigest req rc profile ts ∉ st.submissionDigests)
    (hep : resolveEndpoint profile endpointOverride = .ok ep) :
    prepareXmlSubmission st req rc profile schemaCache sbmtRefId endpointOverride aR sR td ns =
      ({ persistArtifacts st (builtDigest req rc profile ts)
            (mkT619 req rc (profileDict profile) sbmtRefId ts) aR sR td ns with
          submissionDigests := builtDigest req rc profile ts :: st.submissionDigests
          lastSbmtRefId := some sbmtRefId },
       .ok ⟨⟨profile.softwareId, profile.softwareVersion, profile.transmitterId,
             profile.environment⟩,
            mkT619 req rc (profileDict profile) sbmtRefId ts,
            builtDigest req rc profile ts, sbmtRefId,
            strBytes (mkT619 req rc (profileDict profile) sbmtRefId ts).envelopeXml, ep⟩) := by
  have hgateOk : enforcePrefileGates req rc = .ok () := by
    simp [enforcePrefileGates, hgate]
  have hbuild := buildT619Package_ok req rc (profileDict profile) schemaCache sbmtRefId ts
    hts h1 h2 h3
  simp only [prepareXmlSubmission, hgateOk, hbuild, mkT619, builtDigest]
  rw [if_neg (by simpa [builtDigest, mkT619] using hnew)]
  rw [hep]
  rfl

/-- A call that recomputes an already-registered digest raises the duplicate
error and leaves the state untouched. -/
theorem prepare_dup_run (st : ServiceState) (req : ReturnInput) (rc : ReturnCalc)
    (profile : EfileProfile) (schemaCache : List (String × String))
    (sbmtRefId : String) (endpointOverride : Option String) (aR sR td ns : String)
    (ts : PyDateTime)
    (hts : req.t183SignedTs = some ts)
    (h1 : (schemaCache.lookup SCHEMA_T1).isSome = true)
    (h2 : (schemaCache.lookup SCHEMA_T183).isSome = true)
    (h3 : (schemaCache.lookup SCHEMA_T619).isSome = true)
    (hgate : validateBeforeEfile (buildIdentity req) (gatePayload req rc) = [])
    (hdup : builtDigest req rc profile ts ∈ st.submissionDigests) :
    prepareXmlSubmission st req rc profile schemaCache sbmtRefId endpointOverride aR sR td ns =
      (st, .error (.httpError 409 "Duplicate submission digest detected")) := by
  have hgateOk : enforcePrefileGates req rc = .ok () := by
    simp [enforcePrefileGates, hgate]
  have hbuild := buildT619Package_ok req rc (profileDict profile) schemaCache sbmtRefId ts
    hts h1 h2 h3
  simp only [prepareXmlSubmission, hgateOk, hbuild, mkT619, builtDigest]
  rw [if_pos (by simpa [builtDigest, mkT619] using hdup)]

/-- C1: a first `prepare_xml_submission` call whose digest is not yet in the
submission cache succeeds — registering the digest — and any later call over
the same return, calculation and profile (whatever fresh reference id,
endpoint override, artifact roots or clock readings it sees) computes the
same digest and raises the duplicate error (HTTP 409) instead of returning a
second accepted package. -/
theorem prepare_dedup_idempotent (st : ServiceState) (req : ReturnInput) (rc : ReturnCalc)
    (profile : EfileProfile) (schemaCache : List (String × String))
    (sbmtRefId : String) (endpointOverride : Option String) (aR sR td ns : String)
    (ts : PyDateTime) (ep : String)
    (hts : req.t183SignedTs = some ts)
    (h1 : (schemaCache.lookup SCHEMA_T1).isSome = true)
    (h2 : (schemaCache.lookup SCHEMA_T183).isSome = true)
    (h3 : (schemaCache.lookup SCHEMA_T619).isSome = true)
    (hgate : validateBeforeEfile (buildIdentity req) (gatePayload req rc) = [])
    (hnew : builtDigest req rc profile ts ∉ st.submissionDigests)
    (hep : resolveEndpoint profile endpointOverride = .ok ep) :
    ∃ st' p,
      prepareXmlSubmission st req rc profile schemaCache sbmtRefId endpointOverride
          aR sR td ns = (st', .ok p) ∧
      p.digest = builtDigest req rc profile ts ∧
      p.digest ∈ st'.submissionDigests ∧
      ∀ sbmtRefId' ov' aR' sR' td' ns',
        prepareXmlSubmission st' req rc profile schemaCache sbmtRefId' ov' aR' sR' td' ns' =
          (st', .error (.httpError 409 "Duplicate submission digest detected")) := by
  refine ⟨_, _,
    prepare_first_run st req rc profile schemaCache sbmtRefId endpointOverride aR sR td ns
      ts ep hts h1 h2 h3 hgate hnew hep, rfl, ?_, ?_⟩
  · exact List.mem_cons_self _ _
  · intro sbmtRefId' ov' aR' sR' td' ns'
    exact prepare_dup_run _ req rc profile schemaCache sbmtRefId' ov' aR' sR' td' ns' ts
      hts h1 h2 h3 hgate (List.mem_cons_self _ _)

/-- C9: duplicate rejection is atomic — when `prepare_xml_submission`
computes an already-registered digest it raises 409 and the observable state
is exactly the input state: digest cache, artifact files, daily-summary
entries and summary index are all unchanged. -/
theorem duplicate_rejection_atomic (st : ServiceState) (req : ReturnInput) (rc : ReturnCalc)
    (profile : EfileProfile) (schemaCache : List (String × String))
    (sbmtRefId : String) (ov : Option String) (aR sR td ns : String) (ts : PyDateTime)
    (hts : req.t183SignedTs = some ts)
    (h1 : (schemaCache.lookup SCHEMA_T1).isSome = true)
    (h2 : (schemaCache.lookup SCHEMA_T183).isSome = true)
    (h3 : (schemaCache.lookup SCHEMA_T619).isSome = true)
    (hgate : validateBeforeEfile (buildIdentity req) (gatePayload req rc) = [])
    (hdup : builtDigest req rc profile ts ∈ st.submissionDigests) :
    prepareXmlSubmission st req rc profile schemaCache sbmtRefId ov aR sR td ns =
      (st, .error (.httpError 409 "Duplicate submission digest detected")) ∧
    (prepareXmlSubmission st req rc profile schemaCache sbmtRefId ov aR sR td ns).1.submissionDigests =
      st.submissionDigests ∧
    (prepareXmlSubmission st req rc profile schemaCache sbmtRefId ov aR sR td ns).1.artifacts =
      st.artifacts ∧
    (prepareXmlSubmission st req rc profile schemaCache sbmtRefId ov aR sR td ns).1.summaries =
      st.summaries ∧
    (prepareXmlSubmission st req rc profile schemaCache sbmtRefId ov aR sR td ns).1.summaryIndex =
      st.summaryIndex := by
  have h := prepare_dup_run st req rc profile schemaCache sbmtRefId ov aR sR td ns ts
    hts h1 h2 h3 hgate hdup
  refine ⟨h, ?_, ?_, ?_, ?_⟩ <;> rw [h]

/-- C8: with the authorization signing timestamp absent the pipeline fails
before any network call is possible: the prefile gate reports the
signature-timestamp issue (code 50010), `build_t619_package` raises its
validation `ValueError` instead of producing a package, and
`prepare_xml_submission` stops at the gate with a 400 validation error and an
unchanged state. -/
theorem missing_signature_blocks (st : ServiceState) (req : ReturnInput) (rc : ReturnCalc)
    (profile : EfileProfile) (schemaCache : List (String × String))
    (sbmtRefId : String) (ov : Option String) (aR sR td ns : String)
    (hts : req.t183SignedTs = none) :
    ((⟨"50010", "T183 signature timestamp is required before transmission", some "t183",
        "error"⟩ : ValidationIssue) ∈
      validateBeforeEfile (buildIdentity req) (gatePayload req rc)) ∧
    (∀ (profileL : List (String × String)) (refId : String),
      buildT619Package req rc profileL schemaCache refId =
        .error "T183 signature timestamp is required for CRA payload") ∧
    (∃ issues,
      prepareXmlSubmission st req rc profile schemaCache sbmtRefId ov aR sR td ns =
        (st, .error (.prefileValidation issues)) ∧
      (⟨"50010", "T183 signature timestamp is required before transmission", some "t183",
        "error"⟩ : ValidationIssue) ∈ issues) := by
  have hfal : pyTruthy (gatePayload req rc).t183SignedTs = false := by
    simp [gatePayload, hts, pyTruthy]
  have hmem : (⟨"50010", "T183 signature timestamp is required before transmission",
      some "t183", "error"⟩ : ValidationIssue) ∈
      validateBeforeEfile (buildIdentity req) (gatePayload req rc) := by
    simp [validateBeforeEfile, hfal]
  refine ⟨hmem, ?_, ?_⟩
  · intro profileL refId
    simp [buildT619Package, mapT183Fields, hts, Bind.bind, Except.bind]
  · have hne : validateBeforeEfile (buildIdentity req) (gatePayload req rc) ≠ [] :=
      List.ne_nil_of_mem hmem
    have hgateErr : enforcePrefileGates req rc =
        .error (.prefileValidation (validateBeforeEfile (buildIdentity req) (gatePayload req rc))) := by
      simp [enforcePrefileGates, hne]
    refine ⟨validateBeforeEfile (buildIdentity req) (gatePayload req rc), ?_, hmem⟩
    simp only [prepareXmlSubmission, hgateErr]

/-- The taxpayer used by the concrete witnesses (a Luhn-valid test SIN). -/
def wTaxpayer : Taxpayer :=
  ⟨"046454286", "Jane", "Doe", ⟨1980, 1, 1⟩, "1 Main St", "Ottawa", "ON", "K1A0B1", "resident"⟩

/-- A gate-clean signed return. -/
def wReq : ReturnInput :=
  { taxpayer := wTaxpayer
    t183SignedTs := some ⟨2025, 4, 1, 12, 0, 0⟩
    t183IpHash := some "iph"
    t183UserAgentHash := some "uah" }

/-- The same return with the signing timestamp absent. -/
def wReqNoTs : ReturnInput :=
  { taxpayer := wTaxpayer
    t183IpHash := some "iph"
    t183UserAgentHash := some "uah" }

def wCalc : ReturnCalc := ⟨2025, "ON", [("taxable_income", 50000)], [("net_tax", 1234)]⟩

def wProfile : EfileProfile :=
  ⟨"CERT", "TAXAPP-CERT", "0.0.3", "900000", some "http://127.0.0.1:9000"⟩

def wSchemas : List (String × String) :=
  [(SCHEMA_T1, "xsd1"), (SCHEMA_T183, "xsd2"), (SCHEMA_T619, "xsd3")]

/-- The concrete witness return passes the prefile gate cleanly. -/
theorem wReq_gate_clean :
    validateBeforeEfile (buildIdentity wReq) (gatePayload wReq wCalc) = [] := by
  norm_num [validateBeforeEfile, validateIdentityFields, buildIdentity, gatePayload, wReq, wCalc,
    wTaxpayer, luhnValid, luhnSum, luhnDouble, validDobString, splitOnChar, digitsToNat,
    validDate, daysInMonth, isLeap, pyStrip, pyUpper, validatePostalCode, removeSpaces,
    ALLOWED_PROVINCES, pyTruthy, pyOrS, validateTaxYear, validateT4Slips, validateT4ASlips,
    validateT5Slips, validateSlipCounts, validateTuitionSlips, validateTuitionClaims,
    validateRrspAmount, dateIso, natPad, dtIso, emitEfile]
  simp +decide

/-- Witness for the C1 theorem on a concrete valid submission against an
empty cache. -/
theorem prepare_dedup_idempotent_witness :
    (wReq.t183SignedTs = some ⟨2025, 4, 1, 12, 0, 0⟩ ∧
     (wSchemas.lookup SCHEMA_T1).isSome = true ∧
     (wSchemas.lookup SCHEMA_T183).isSome = true ∧
     (wSchemas.lookup SCHEMA_T619).isSome = true ∧
     validateBeforeEfile (buildIdentity wReq) (gatePayload wReq wCalc) = [] ∧
     builtDigest wReq wCalc wProfile ⟨2025, 4, 1, 12, 0, 0⟩ ∉
       (⟨[], [], [], [], none⟩ : ServiceState).submissionDigests ∧
     resolveEndpoint wProfile none = .ok "http://127.0.0.1:9000") ∧
    (∃ st' p,
       prepareXmlSubmission ⟨[], [], [], [], none⟩ wReq wCalc wProfile wSchemas "25100AAA"
           none "artifacts" "artifacts/summaries" "20250410" "T" = (st', .ok p) ∧
       p.digest = builtDigest wReq wCalc wProfile ⟨2025, 4, 1, 12, 0, 0⟩ ∧
       p.digest ∈ st'.submissionDigests ∧
       ∀ sbmtRefId' ov' aR' sR' td' ns',
         prepareXmlSubmission st' wReq wCalc wProfile wSchemas sbmtRefId' ov' aR' sR' td' ns' =
           (st', .error (.httpError 409 "Duplicate submission digest detected"))) :=
  ⟨⟨rfl, rfl, rfl, rfl, wReq_gate_clean, List.not_mem_nil _, rfl⟩,
   prepare_dedup_idempotent ⟨[], [], [], [], none⟩ wReq wCalc wProfile wSchemas "25100AAA"
     none "artifacts" "artifacts/summaries" "20250410" "T" ⟨2025, 4, 1, 12, 0, 0⟩
     "http://127.0.0.1:9000" rfl rfl rfl rfl wReq_gate_clean (List.not_mem_nil _) rfl⟩

/-- Witness for the C9 theorem: a state whose cache already holds the digest
and whose artifact/summary stores are nonempty, all left untouched. -/
theorem duplicate_rejection_atomic_witness :
    (wReq.t183SignedTs = some ⟨2025, 4, 1, 12, 0, 0⟩ ∧
     (wSchemas.lookup SCHEMA_T1).isSome = true ∧
     (wSchemas.lookup SCHEMA_T183).isSome = true ∧
     (wSchemas.lookup SCHEMA_T619).isSome = true ∧
     validateBeforeEfile (buildIdentity wReq) (gatePayload wReq wCalc) = [] ∧
     builtDigest wReq wCalc wProfile ⟨2025, 4, 1, 12, 0, 0⟩ ∈
       [builtDigest wReq wCalc wProfile ⟨2025, 4, 1, 12, 0, 0⟩]) ∧
    (prepareXmlSubmission
        ⟨[builtDigest wReq wCalc wProfile ⟨2025, 4, 1, 12, 0, 0⟩],
         [("artifacts/x.xml", "old")], [("s.json", ⟨"d", "r", "t", []⟩)], [("d", "s.json")],
         some "OLDREF"⟩
        wReq wCalc wProfile wSchemas "25200BBB" none "artifacts" "artifacts/summaries"
        "20250420" "T2" =
      (⟨[builtDigest wReq wCalc wProfile ⟨2025, 4, 1, 12, 0, 0⟩],
        [("artifacts/x.xml", "old")], [("s.json", ⟨"d", "r", "t", []⟩)], [("d", "s.json")],
        some "OLDREF"⟩,
       .error (.httpError 409 "Duplicate submission digest detected"))) :=
  ⟨⟨rfl, rfl, rfl, rfl, wReq_gate_clean, List.mem_cons_self _ _⟩,
   (duplicate_rejection_atomic
     ⟨[builtDigest wReq wCalc wProfile ⟨2025, 4, 1, 12, 0, 0⟩],
      [("artifacts/x.xml", "old")], [("s.json", ⟨"d", "r", "t", []⟩)], [("d", "s.json")],
      some "OLDREF"⟩
     wReq wCalc wProfile wSchemas "25200BBB" none "artifacts" "artifacts/summaries"
     "20250420" "T2" ⟨2025, 4, 1, 12, 0, 0⟩ rfl rfl rfl rfl wReq_gate_clean
     (List.mem_cons_self _ _)).1⟩

/-- Witness for the C8 theorem at a concrete unsigned return. -/
theorem missing_signature_blocks_witness :
    wReqNoTs.t183SignedTs = none ∧
    (((⟨"50010", "T183 signature timestamp is required before transmission", some "t183",
         "error"⟩ : ValidationIssue) ∈
       validateBeforeEfile (buildIdentity wReqNoTs) (gatePayload wReqNoTs wCalc)) ∧
     (∀ (profileL : List (String × String)) (refId : String),
       buildT619Package wReqNoTs wCalc profileL wSchemas refId =
         .error "T183 signature timestamp is required for CRA payload") ∧
     (∃ issues,
       prepareXmlSubmission ⟨[], [], [], [], none⟩ wReqNoTs wCalc wProfile wSchemas
           "25100AAA" none "artifacts" "artifacts/summaries" "20250410" "T" =
         (⟨[], [], [], [], none⟩, .error (.prefileValidation issues)) ∧
       (⟨"50010", "T183 signature timestamp is required before transmission", some "t183",
         "error"⟩ : ValidationIssue) ∈ issues)) :=
  ⟨rfl, missing_signature_blocks ⟨[], [], [], [], none⟩ wReqNoTs wCalc wProfile wSchemas
    "25100AAA" none "artifacts" "artifacts/summaries" "20250410" "T" rfl⟩

/-- A list is a Boolean prefix of itself followed by anything. -/
theorem isPrefixOf_self_append (l₁ l₂ : List Char) : l₁.isPrefixOf (l₁ ++ l₂) = true := by
  induction l₁ with
  | nil => simp [List.isPrefixOf]
  | cons a t ih => simp [List.isPrefixOf, ih]

/-- The modelled serialization recovers `expires_at`. -/
theorem parseExpiry_encodeRecord (r : T183Record) :
    parseExpiry (encodeRecord r) = some r.expiresAt := by
  simp only [encodeRecord, dtBytes, List.cons_append, parseExpiry, Option.some.injEq]
  have : r.expiresAt.year / 256 * 256 + r.expiresAt.year % 256 = r.expiresAt.year := by omega
  rw [this]

/-- The modelled Fernet round-trip. -/
theorem fernetDecrypt_fernetEncrypt (k : Nat) (data : ByteSeq) :
    fernetDecrypt k (fernetEncrypt k data) = some data := by
  simp [fernetEncrypt, fernetDecrypt]

/-- Any file written by `store_signed` has the `t183_` name prefix, the
`.enc` suffix, and a readable `expires_at` equal to the record's. -/
theorem storedFile_shape (cfg : CryptoCfg) (r : T183Record) (baseDir : String)
    (taxYear : Nat) (originalSin : String) (f : RetFile)
    (hstore : storeSigned cfg r baseDir taxYear originalSin = .ok f) :
    f.name = "t183_" ++ toString (epochSeconds r.filedAt) ∧ f.suffix = ".enc" ∧
    readExpiry cfg f = some r.expiresAt := by
  rcases cfg with _ | k | _
  · simp only [storeSigned, storeAuthorization, encrypt, cipherOf, Bind.bind, Except.bind,
      pure, Except.pure, Except.ok.injEq] at hstore
    rw [← hstore]
    refine ⟨rfl, rfl, ?_⟩
    simp [readExpiry, decrypt, cipherOf, Bind.bind, Except.bind, pure, Except.pure,
      Except.toOption, Option.bind, parseExpiry_encodeRecord]
  · simp only [storeSigned, storeAuthorization, encrypt, cipherOf, Bind.bind, Except.bind,
      pure, Except.pure, Except.ok.injEq] at hstore
    rw [← hstore]
    refine ⟨rfl, rfl, ?_⟩
    simp [readExpiry, decrypt, cipherOf, Bind.bind, Except.bind, pure, Except.pure,
      Except.toOption, Option.bind, fernetDecrypt_fernetEncrypt, parseExpiry_encodeRecord]
  · simp [storeSigned, storeAuthorization, encrypt, cipherOf, Bind.bind, Except.bind] at hstore

/-- C6: a Feb-29 anchor with the 6-year retention period lands on the valid
calendar date 2030-02-28 (nearest valid date, no exception), and for any
record stored by `store_signed` under any usable key configuration, a purge
removes exactly that file iff `as_of >= expires_at`. -/
theorem retention_expiry_purge (cfg : CryptoCfg) (r : T183Record) (baseDir : String)
    (taxYear : Nat) (originalSin : String) (f : RetFile) (asOf now : PyDateTime)
    (hstore : storeSigned cfg r baseDir taxYear originalSin = .ok f) :
    (computeExpiry ⟨2024, 2, 29, 8, 0, 0⟩ = ⟨2030, 2, 28, 8, 0, 0⟩ ∧
      validDate 2030 2 28 = true) ∧
    purgeExpired cfg [f] (some asOf) now =
      (if dtLe r.expiresAt asOf then ([filePath f], []) else ([], [f])) := by
  obtain ⟨hname, hsuffix, hread⟩ :=
    storedFile_shape cfg r baseDir taxYear originalSin f hstore
  refine ⟨⟨by decide, by decide⟩, ?_⟩
  have hmatch : purgeMatches "t183" f = true := by
    have hdata : f.name.data = "t183_".data ++ (toString (epochSeconds r.filedAt)).data := by
      rw [hname]
      rfl
    show ("t183" ++ "_").data.isPrefixOf f.name.data = true
    rw [hdata]
    exact isPrefixOf_self_append _ _
  have hsr : shouldRemove cfg "t183" asOf f = dtLe r.expiresAt asOf := by
    simp [shouldRemove, hmatch, hsuffix, hread]
  by_cases hle : dtLe r.expiresAt asOf
  · simp [purgeExpired, purgeAuthorizations, hsr, hle]
  · simp [purgeExpired, purgeAuthorizations, hsr, hle]

/-- A sample consent record anchored at the leap day 2024-02-29 08:00 UTC. -/
def sampleRecord : T183Record :=
  buildRecord "046454286" ⟨2024, 2, 28, 9, 0, 0⟩ ⟨2024, 2, 29, 8, 0, 0⟩ "t183.pdf"
    none none none

/-- The file `store_signed` writes for `sampleRecord` with no key configured. -/
def sampleStored : RetFile :=
  { dir := retentionPath "retention" 2024 "046454286"
    name := "t183_" ++ toString (epochSeconds sampleRecord.filedAt)
    suffix := ".enc"
    content := encodeRecord sampleRecord }

/-- Witness for the C6 theorem: the sample record is stored, its expiry is
2030-02-28 08:00, and a purge in 2031 removes exactly that file. -/
theorem retention_expiry_purge_witness :
    storeSigned .noKey sampleRecord "retention" 2024 "046454286" = .ok sampleStored ∧
    ((computeExpiry ⟨2024, 2, 29, 8, 0, 0⟩ = ⟨2030, 2, 28, 8, 0, 0⟩ ∧
        validDate 2030 2 28 = true) ∧
      purgeExpired .noKey [sampleStored] (some ⟨2031, 1, 1, 0, 0, 0⟩) ⟨2031, 1, 1, 0, 0, 0⟩ =
        (if dtLe sampleRecord.expiresAt ⟨2031, 1, 1, 0, 0, 0⟩ then
          ([filePath sampleStored], []) else ([], [sampleStored]))) :=
  ⟨rfl, retention_expiry_purge .noKey sampleRecord "retention" 2024 "046454286" sampleStored
    ⟨2031, 1, 1, 0, 0, 0⟩ ⟨2031, 1, 1, 0, 0, 0⟩ rfl⟩

/-- `_state` raises while the breaker is open. -/
theorem circuitGate_open (st : CircuitState) (now : ℚ) (h0 : st.openUntil ≠ 0)
    (hlt : now < st.openUntil) : circuitGate st now = .error st.openUntil := by
  simp [circuitGate, h0, hlt]

/-- `_state` clears the breaker once `open_until` has elapsed. -/
theorem circuitGate_halfOpen (st : CircuitState) (now : ℚ) (h0 : st.openUntil ≠ 0)
    (hge : st.openUntil ≤ now) : circuitGate st now = .ok ⟨0, 0⟩ := by
  have hnlt : ¬ now < st.openUntil := not_lt.mpr hge
  simp [circuitGate, h0, hnlt, hge]

/-- `_state` is the identity on a closed breaker. -/
theorem circuitGate_closed (st : CircuitState) (now : ℚ) (h0 : st.openUntil = 0) :
    circuitGate st now = .ok st := by
  simp [circuitGate, h0]

/-- A successful attempt ends the retry loop at once with a reset breaker. -/
theorem sendLoop_succ_ok (cfg : TransmitConfig) (net : Nat → Except String String)
    (failTime : Nat → ℚ) (fuel : Nat) (st : CircuitState) (attempt : Nat)
    (lastError : Option String) (sleeps : List ℚ) (body : String)
    (h : net attempt = .ok body) :
    sendLoop cfg net failTime (fuel + 1) st attempt lastError sleeps =
      ⟨.ok body, attempt + 1, sleeps.reverse, ⟨0, 0⟩⟩ := by
  simp [sendLoop, h, recordSuccess]

/-- When every remaining attempt fails, the loop exhausts its fuel: it makes
all the attempts, sleeps `backoff * 2^i` after the attempt of index `i`, and
raises carrying the last error. -/
theorem sendLoop_all_fail (cfg : TransmitConfig) (net : Nat → Except String String)
    (failTime : Nat → ℚ) (e : Nat → String) :
    ∀ (fuel : Nat) (st : CircuitState) (attempt : Nat) (lastError : Option String)
      (sleeps : List ℚ),
      (∀ i, i < fuel → net (attempt + i) = .error (e (attempt + i))) →
      ∃ stF, sendLoop cfg net failTime fuel st attempt lastError sleeps =
        ⟨.error (.transmissionFailed
            (if fuel = 0 then lastError else some (e (attempt + fuel - 1)))),
         attempt + fuel,
         sleeps.reverse ++ (List.range' attempt fuel).map (fun i => cfg.backoff * 2 ^ i),
         stF⟩ := by
  intro fuel
  induction fuel with
  | zero =>
      intro st attempt lastError sleeps _
      exact ⟨st, by simp [sendLoop]⟩
  | succ n ih =>
      intro st attempt lastError sleeps h
      have h0 : net attempt = .error (e attempt) := by
        have := h 0 (Nat.succ_pos n)
        simpa using this
      obtain ⟨stF, hF⟩ := ih
        (recordFailure st (failTime attempt) cfg.circuitCooldown cfg.circuitThreshold)
        (attempt + 1) (some (e attempt)) (cfg.backoff * 2 ^ attempt :: sleeps)
        (fun i hi => by
          have h1 := h (i + 1) (by omega)
          have h2 : attempt + 1 + i = attempt + (i + 1) := by omega
          rw [h2]
          exact h1)
      refine ⟨stF, ?_⟩
      simp only [sendLoop, h0]
      rw [hF]
      have harg : (if n = 0 then some (e attempt) else some (e (attempt + 1 + n - 1))) =
          some (e (attempt + (n + 1) - 1)) := by
        rcases n with _ | m
        · simp
        · simp only [if_neg (Nat.succ_ne_zero m)]
          congr 2
          omega
      simp only [SendTrace.mk.injEq]
      refine ⟨by rw [harg]; simp, by omega, ?_, trivial⟩
      simp [List.range'_succ, List.reverse_cons, List.append_assoc]

/-- The loop never makes more attempts than it has fuel for. -/
theorem sendLoop_attempts_le (cfg : TransmitConfig) (net : Nat → Except String String)
    (failTime : Nat → ℚ) :
    ∀ (fuel : Nat) (st : CircuitState) (attempt : Nat) (lastError : Option String)
      (sleeps : List ℚ),
      (sendLoop cfg net failTime fuel st attempt lastError sleeps).attempts ≤ attempt + fuel := by
  intro fuel
  induction fuel with
  | zero =>
      intro st attempt lastError sleeps
      simp [sendLoop]
  | succ n ih =>
      intro st attempt lastError sleeps
      simp only [sendLoop]
      cases hn : net attempt with
      | ok body => simp
      | error exc =>
          have := ih
            (recordFailure st (failTime attempt) cfg.circuitCooldown cfg.circuitThreshold)
            (attempt + 1) (some exc) (cfg.backoff * 2 ^ attempt :: sleeps)
          simp only []
          exact le_trans this (by omega)

/-- C2: once the breaker has recorded `threshold` consecutive failures (the
failure at time `t` brings the count to the threshold and opens the circuit
until `t + cooldown`), a `send` before that instant fails immediately with
`CircuitOpenError` and makes no network attempt; a `send` at or after it is
attempted normally, and a success resets `consecutiveFailures` to 0. -/
theorem circuitBreaker_spec (cfg : TransmitConfig) (net : Nat → Except String String)
    (failTime : Nat → ℚ) (st : CircuitState) (t now1 now2 : ℚ) (body : String)
    (hth : cfg.circuitThreshold ≤ st.failures + 1)
    (ht : 0 ≤ t) (hcd : 0 < cfg.circuitCooldown)
    (h1 : now1 < t + cfg.circuitCooldown)
    (h2 : t + cfg.circuitCooldown ≤ now2)
    (hmax : 1 ≤ cfg.maxRetries)
    (hok : net 0 = .ok body) :
    ((recordFailure st t cfg.circuitCooldown cfg.circuitThreshold).openUntil =
      t + cfg.circuitCooldown) ∧
    (send cfg net failTime (recordFailure st t cfg.circuitCooldown cfg.circuitThreshold) now1 =
      ⟨.error (.circuitOpen (t + cfg.circuitCooldown)), 0, [],
       recordFailure st t cfg.circuitCooldown cfg.circuitThreshold⟩) ∧
    (send cfg net failTime (recordFailure st t cfg.circuitCooldown cfg.circuitThreshold) now2 =
      ⟨.ok body, 1, [], ⟨0, 0⟩⟩) := by
  have hopen : recordFailure st t cfg.circuitCooldown cfg.circuitThreshold =
      ⟨st.failures + 1, t + cfg.circuitCooldown⟩ := by
    simp [recordFailure, hth]
  have hne : t + cfg.circuitCooldown ≠ 0 := by
    have : 0 < t + cfg.circuitCooldown := by linarith
    exact (ne_of_gt this)
  refine ⟨by rw [hopen], ?_, ?_⟩
  · rw [hopen]
    have hg : circuitGate (⟨st.failures + 1, t + cfg.circuitCooldown⟩ : CircuitState) now1 =
        .error (t + cfg.circuitCooldown) := circuitGate_open _ _ hne h1
    simp only [send, hg]
  · rw [hopen]
    have hg : circuitGate (⟨st.failures + 1, t + cfg.circuitCooldown⟩ : CircuitState) now2 =
        .ok ⟨0, 0⟩ := circuitGate_halfOpen _ _ hne h2
    simp only [send, hg]
    obtain ⟨m, hm⟩ : ∃ m, cfg.maxRetries = m + 1 := ⟨cfg.maxRetries - 1, by omega⟩
    rw [hm]
    exact sendLoop_succ_ok cfg net failTime m ⟨0, 0⟩ 0 none [] body hok

/-- Witness for the C2 theorem: threshold 2 reached at t = 5 with cooldown 30;
a call at t = 10 is rejected without I/O, a call at t = 40 succeeds and
resets the count. -/
theorem circuitBreaker_spec_witness :
    ((⟨3, 1, 2, 30⟩ : TransmitConfig).circuitThreshold ≤
        (⟨1, 0⟩ : CircuitState).failures + 1 ∧
      (0 : ℚ) ≤ 5 ∧ (0 : ℚ) < (⟨3, 1, 2, 30⟩ : TransmitConfig).circuitCooldown ∧
      (10 : ℚ) < 5 + (⟨3, 1, 2, 30⟩ : TransmitConfig).circuitCooldown ∧
      5 + (⟨3, 1, 2, 30⟩ : TransmitConfig).circuitCooldown ≤ (40 : ℚ) ∧
      1 ≤ (⟨3, 1, 2, 30⟩ : TransmitConfig).maxRetries ∧
      (fun (_ : Nat) => (Except.ok "ack" : Except String String)) 0 = .ok "ack") ∧
    ((recordFailure ⟨1, 0⟩ 5 (30 : ℚ) 2).openUntil = 5 + 30 ∧
      send ⟨3, 1, 2, 30⟩ (fun _ => .ok "ack") (fun _ => 0) (recordFailure ⟨1, 0⟩ 5 (30 : ℚ) 2) 10 =
        ⟨.error (.circuitOpen (5 + 30)), 0, [], recordFailure ⟨1, 0⟩ 5 (30 : ℚ) 2⟩ ∧
      send ⟨3, 1, 2, 30⟩ (fun _ => .ok "ack") (fun _ => 0) (recordFailure ⟨1, 0⟩ 5 (30 : ℚ) 2) 40 =
        ⟨.ok "ack", 1, [], ⟨0, 0⟩⟩) :=
  ⟨⟨by norm_num, by norm_num, by norm_num, by norm_num, by norm_num, by norm_num, rfl⟩,
   circuitBreaker_spec ⟨3, 1, 2, 30⟩ (fun _ => .ok "ack") (fun _ => 0) ⟨1, 0⟩ 5 10 40 "ack"
     (by norm_num) (by norm_num) (by norm_num) (by norm_num) (by norm_num) (by norm_num) rfl⟩

/-- C3: while the circuit is closed, a `send` whose attempts all fail makes
exactly `maxRetries` attempts, sleeps `backoffFactor * 2^(k-1)` between failed
attempt `k` and attempt `k+1`, and raises `TransmissionFailed` carrying the
last underlying error; no call ever makes more than `maxRetries` attempts. -/
theorem retryBackoff_spec (cfg : TransmitConfig) (net : Nat → Except String String)
    (failTime : Nat → ℚ) (st : CircuitState) (now : ℚ) (e : Nat → String)
    (hclosed : st.openUntil = 0)
    (hfail : ∀ i, i < cfg.maxRetries → net i = .error (e i))
    (hpos : 1 ≤ cfg.maxRetries) :
    ((send cfg net failTime st now).sleeps =
      (List.range cfg.maxRetries).map (fun k => cfg.backoff * 2 ^ k)) ∧
    ((send cfg net failTime st now).attempts = cfg.maxRetries) ∧
    ((send cfg net failTime st now).result =
      .error (.transmissionFailed (some (e (cfg.maxRetries - 1))))) ∧
    (∀ net' : Nat → Except String String,
      (send cfg net' failTime st now).attempts ≤ cfg.maxRetries) := by
  have hgate := circuitGate_closed st now hclosed
  obtain ⟨stF, hF⟩ := sendLoop_all_fail cfg net failTime e cfg.maxRetries st 0 none []
    (fun i hi => by simpa using hfail i hi)
  have hsend : send cfg net failTime st now =
      ⟨.error (.transmissionFailed
          (if cfg.maxRetries = 0 then none else some (e (0 + cfg.maxRetries - 1)))),
       0 + cfg.maxRetries,
       [].reverse ++ (List.range' 0 cfg.maxRetries).map (fun i => cfg.backoff * 2 ^ i),
       stF⟩ := by
    simp only [send, hgate]
    exact hF
  refine ⟨?_, ?_, ?_, ?_⟩
  · rw [hsend]
    simp [List.range_eq_range']
  · rw [hsend]
    simp
  · rw [hsend]
    have hz : ¬ cfg.maxRetries = 0 := by omega
    simp [hz]
  · intro net'
    simp only [send, hgate]
    simpa using sendLoop_attempts_le cfg net' failTime cfg.maxRetries st 0 none []

/-- Witness for the C3 theorem: 3 retries, backoff 1/2, every attempt failing. -/
theorem retryBackoff_spec_witness :
    ((⟨0, 0⟩ : CircuitState).openUntil = 0 ∧
      (∀ i, i < (⟨3, 1/2, 5, 30⟩ : TransmitConfig).maxRetries →
        (fun (j : Nat) => (Except.error ("boom" ++ toString j) : Except String String)) i =
          .error ((fun j => "boom" ++ toString j) i)) ∧
      1 ≤ (⟨3, 1/2, 5, 30⟩ : TransmitConfig).maxRetries) ∧
    ((send ⟨3, 1/2, 5, 30⟩ (fun j => .error ("boom" ++ toString j)) (fun _ => 0) ⟨0, 0⟩ 7).sleeps =
      (List.range 3).map (fun k => (1/2 : ℚ) * 2 ^ k) ∧
     (send ⟨3, 1/2, 5, 30⟩ (fun j => .error ("boom" ++ toString j)) (fun _ => 0) ⟨0, 0⟩ 7).attempts = 3 ∧
     (send ⟨3, 1/2, 5, 30⟩ (fun j => .error ("boom" ++ toString j)) (fun _ => 0) ⟨0, 0⟩ 7).result =
       .error (.transmissionFailed (some ("boom" ++ toString 2))) ∧
     (∀ net' : Nat → Except String String,
       (send ⟨3, 1/2, 5, 30⟩ net' (fun _ => 0) ⟨0, 0⟩ 7).attempts ≤ 3)) :=
  ⟨⟨rfl, fun _ _ => rfl, by norm_num⟩,
   retryBackoff_spec ⟨3, 1/2, 5, 30⟩ (fun j => .error ("boom" ++ toString j)) (fun _ => 0)
     ⟨0, 0⟩ 7 (fun j => "boom" ++ toString j) rfl (fun _ _ => rfl) (by norm_num)⟩

/-- C5 (amended): when a call arrives at or after `openUntil`, the gate clears
the breaker (failures := 0, openUntil := 0) and the call is attempted
normally.  A successful half-open attempt returns to Closed with
`consecutiveFailures = 0`; a **failed** half-open attempt does *not*
re-open the circuit with a fresh cooldown unless `threshold ≤ 1` — the
elapsed-cooldown reset means the failure count restarts at 0, so the state
after the failure is `{failures := 1, openUntil := threshold ≤ 1 ? failTime +
cooldown : 0}`. -/
theorem halfOpen_amended (cfg : TransmitConfig) (net : Nat → Except String String)
    (failTime : Nat → ℚ) (st : CircuitState) (now : ℚ) (err body : String)
    (hopen : st.openUntil ≠ 0) (helapsed : st.openUntil ≤ now)
    (hone : cfg.maxRetries = 1) :
    (net 0 = .ok body →
      send cfg net failTime st now = ⟨.ok body, 1, [], ⟨0, 0⟩⟩) ∧
    (net 0 = .error err →
      send cfg net failTime st now =
        ⟨.error (.transmissionFailed (some err)), 1, [cfg.backoff],
         ⟨1, if cfg.circuitThreshold ≤ 1 then failTime 0 + cfg.circuitCooldown else 0⟩⟩) := by
  have hgate := circuitGate_halfOpen st now hopen helapsed
  constructor
  · intro hok
    simp only [send, hgate, hone]
    simpa using sendLoop_succ_ok cfg net failTime 0 ⟨0, 0⟩ 0 none [] body hok
  · intro herr
    simp only [send, hgate, hone]
    simp [sendLoop, herr, recordFailure]

/-- Witness for the C5 theorem: breaker open until 50, call at 60, single
retry. -/
theorem halfOpen_amended_witness :
    ((⟨3, 50⟩ : CircuitState).openUntil ≠ 0 ∧
      (⟨3, 50⟩ : CircuitState).openUntil ≤ (60 : ℚ) ∧
      (⟨1, 2, 5, 30⟩ : TransmitConfig).maxRetries = 1) ∧
    (((fun (_ : Nat) => (Except.ok "ack" : Except String String)) 0 = .ok "ack" →
        send ⟨1, 2, 5, 30⟩ (fun _ => .ok "ack") (fun _ => 60) ⟨3, 50⟩ 60 =
          ⟨.ok "ack", 1, [], ⟨0, 0⟩⟩) ∧
     ((fun (_ : Nat) => (Except.ok "ack" : Except String String)) 0 = .error "nope" →
        send ⟨1, 2, 5, 30⟩ (fun _ => .ok "ack") (fun _ => 60) ⟨3, 50⟩ 60 =
          ⟨.error (.transmissionFailed (some "nope")), 1, [(⟨1, 2, 5, 30⟩ : TransmitConfig).backoff],
           ⟨1, if (⟨1, 2, 5, 30⟩ : TransmitConfig).circuitThreshold ≤ 1 then
               (fun (_ : Nat) => (60 : ℚ)) 0 + (⟨1, 2, 5, 30⟩ : TransmitConfig).circuitCooldown
             else 0⟩⟩)) :=
  ⟨⟨by norm_num, by norm_num, rfl⟩,
   halfOpen_amended ⟨1, 2, 5, 30⟩ (fun _ => .ok "ack") (fun _ => 60) ⟨3, 50⟩ 60 "nope" "ack"
     (by norm_num) (by norm_num) rfl⟩

/-- C5 counterexample: threshold 2, cooldown 30, circuit open until t=100; the
call at t=100 (cooldown elapsed) is attempted (1 network attempt) and fails,
yet the circuit does **not** re-open: the state becomes
`{failures := 1, openUntil := 0}`, not `openUntil = now + cooldown = 130` —
the elapsed-cooldown gate had already reset the failure count to 0. -/
theorem halfOpen_failure_counterexample :
    (send ⟨1, 1, 2, 30⟩ (fun _ => .error "boom") (fun _ => 100) ⟨2, 100⟩ 100).attempts = 1 ∧
    (send ⟨1, 1, 2, 30⟩ (fun _ => .error "boom") (fun _ => 100) ⟨2, 100⟩ 100).state = ⟨1, 0⟩ ∧
    (send ⟨1, 1, 2, 30⟩ (fun _ => .error "boom") (fun _ => 100) ⟨2, 100⟩ 100).state.openUntil ≠
      100 + 30 := by
  have h : send ⟨1, 1, 2, 30⟩ (fun _ => .error "boom") (fun _ => 100) ⟨2, 100⟩ 100 =
      ⟨.error (.transmissionFailed (some "boom")), 1, [1], ⟨1, 0⟩⟩ := by
    norm_num [send, circuitGate, sendLoop, recordFailure, recordSuccess]
  refine ⟨by rw [h], by rw [h], by rw [h]; norm_num⟩

end TaxPrep
